import Mathlib

/-!
# SwitchOnOff.c: the application state machine of a three-channel Z-Wave switch

A shallow embedding of `src/SwitchOnOff.c`.  The C globals (`myNodeID`,
`currentState`, `onOffState`, `userReboot`, `switch_state`) become the fields of
one record, `AppCtx`, which every function takes and gives back.  The record also
carries what the code does to the world outside the file: the level last written
to each LED/relay pin, the one-shot timers that are running, the events handed
to the event scheduler, and a log of every other call into the SDK.

`AppStateManager` does not return when it reaches `for (;;) {}`; its result is
therefore an `Outcome`, either `returned c` or `spins c` (the function loops
forever with the globals as in `c`).

Conditional compilation: the model is the build with `BOOTLOADER_ENABLED`
defined (the `STATE_APP_OTA_HOST` branch and the OTA callbacks exist) and with
`ZW_DEBUG_APP` undefined or not: the debug output macros touch no state.
`WATCHDOG_ENABLED` and the constants of headers outside `src/` are parameters
(`Consts`).
-/

namespace SwitchOnOff

/-! ## Types -/

/-- Modelled from the spec: the event numbers.  The enumeration `EVENT_APP` is in
the source; the key events (`EVENT_KEY_B1_DOWN` ...), the system events
(`EVENT_SYSTEM_...`) and the wake-up events come from `ev_man.h` and
`io_zdp03a.h`, which are not under `src/`.  They are pairwise different numbers
there, so each is a constructor here.  `EVENT_WAKEUP r` is the wake-up reason
cast to an event, `EVENT_OTHER n` any event number the source never names (key
held, key press, triple press, ...). -/
inductive EVENT_APP where
  | EVENT_EMPTY
  | EVENT_APP_INIT
  | EVENT_APP_REFRESH_MMI
  | EVENT_APP_OTA_HOST_WRITE_DONE
  | EVENT_APP_OTA_HOST_STATUS
  | EVENT_KEY1_DOWN
  | EVENT_KEY1_UP
  | EVENT_KEY2_DOWN
  | EVENT_KEY2_UP
  | EVENT_KEY3_DOWN
  | EVENT_KEY3_UP
  | EVENT_SYSTEM_LEARNMODE_START
  | EVENT_SYSTEM_LEARNMODE_END
  | EVENT_SYSTEM_LEARNMODE_FINISH
  | EVENT_SYSTEM_WATCHDOG_RESET
  | EVENT_SYSTEM_OTA_START
  | EVENT_WAKEUP (reason : Nat)
  | EVENT_OTHER (n : Nat)
  deriving DecidableEq, Repr

/-- The enumeration `STATE_APP` of the source. -/
inductive STATE_APP where
  | STATE_APP_STARTUP
  | STATE_APP_IDLE
  | STATE_APP_LEARN_MODE
  | STATE_APP_WATCHDOG_RESET
  | STATE_APP_OTA
  | STATE_APP_OTA_HOST
  deriving DecidableEq, Repr

/-- Modelled from the spec: the learn modes passed to `StartLearnModeNow`
(`slave_learn.h`, not under `src/`): begin inclusion, begin exclusion, cancel. -/
inductive LEARN_MODE where
  | LEARN_MODE_INCLUSION
  | LEARN_MODE_EXCLUSION_NWE
  | LEARN_MODE_DISABLE
  deriving DecidableEq, Repr

/-- The four LED pins of the board that the source drives: D1, D2, D3 are the
relays of channels 0, 1, 2 and D6 is the network LED. -/
inductive LedPin where
  | ZDP03A_LED_D1
  | ZDP03A_LED_D2
  | ZDP03A_LED_D3
  | ZDP03A_LED_D6
  deriving DecidableEq, Repr

/-- The three key pins of the board. -/
inductive KeyPin where
  | ZDP03A_KEY_1
  | ZDP03A_KEY_2
  | ZDP03A_KEY_3
  deriving DecidableEq, Repr

/-- The four byte locations of the persisted store that the source names (see
`NVM`). -/
inductive NvmAddr where
  | EEOFFSET_MAGIC_far
  | OnOffState_far
  | EEOFFSET_SWITCH_ALL_MODE_far
  | EEOFFS_MAGIC_BYTE_field
  deriving DecidableEq, Repr

/-- One call from the source into the SDK, with its arguments.  Calls to
`ZCB_EventSchedulerEventAdd` are kept apart, in `AppCtx.eventQueue`. -/
inductive Call where
  | SetPinOut (pin : LedPin)
  | SetPinIn (pin : KeyPin) (pullUp : Bool)
  | Led (pin : LedPin) (level : Bool)
  | StartLearnModeNow (mode : LEARN_MODE)
  | ZW_TIMER_START (ticks : Nat) (repeats : Nat) (handle : Nat)
  | ZW_TIMER_CANCEL (handle : Nat)
  | ZW_WatchDogEnable
  | OtaHostFWU_WriteFinish
  | OtaHostFWU_Status (userReboot : Bool) (status : Bool)
  | AssociationInit (forceClearMem : Bool)
  | Transport_OnLearnCompleted (nodeID : Nat)
  | ZDP03A_InitHW
  | Transport_OnApplicationInitHW (wakeupReason : Nat)
  | MemoryGetID
  | ManufacturerSpecificDeviceIDInit
  | NvmInit (nvmStatus : Nat)
  | loadStatusPowerLevel
  | loadInitStatusPowerLevel
  | Transport_SetDefault
  | ZW_SetDefault
  | AGI_Init
  | AGI_LifeLineGroupSetup
  | OtaInit
  | EventSchedulerInit
  | Transport_OnApplicationInitSW
  | MemoryPutByte (addr : NvmAddr) (value : Nat)
  deriving DecidableEq, Repr

/-- Modelled from the spec: the bytes of the persisted store that the source
reads and writes (their addresses are declared in `eeprom.h` and the SDK, not
under `src/`; they are four different locations).  `EEOFFSET_MAGIC_far` is the
sentinel, `OnOffState_far` the stored on/off byte, `EEOFFSET_SWITCH_ALL_MODE_far`
element 0 of the switch-all mode, `EEOFFS_MAGIC_BYTE_field` the magic byte of
the security area.  `nodeID` is the node identifier in the protocol's part of
the store, which `MemoryGetID` reads. -/
structure NVM where
  nodeID : Nat
  EEOFFSET_MAGIC_far : Nat
  OnOffState_far : Nat
  EEOFFSET_SWITCH_ALL_MODE_far : Nat
  EEOFFS_MAGIC_BYTE_field : Nat
  deriving DecidableEq, Repr

/-- Modelled from the spec: the constants and build switches the source takes
from headers that are not under `src/` (`eeprom.h`, `config_app.h`,
`ZW_classcmd.h`).  They are parameters of the functions that use them. -/
structure Consts where
  APPL_MAGIC_VALUE : Nat
  EEPROM_MAGIC_BYTE_VALUE : Nat
  SWITCH_ALL_REPORT_INCLUDED_IN_THE_ALL_ON_ALL_OFF_FUNCTIONALITY : Nat
  WATCHDOG_ENABLED : Bool
  deriving DecidableEq, Repr

/-- Modelled from the spec: the status passed to `ZCB_OTAFinish` (`ota_util.h`,
not under `src/`): done, or any other status. -/
inductive OTA_STATUS where
  | OTA_STATUS_DONE
  | OTA_STATUS_OTHER (n : Nat)
  deriving DecidableEq, Repr

/-- The struct `switch_state_t`: three one-bit channel states, the one-bit
long-press flag `learn`, and the handle of the timer started last. -/
structure switch_state_t where
  s1 : Bool
  s2 : Bool
  s3 : Bool
  learn : Bool
  tmr_handle : Nat
  deriving DecidableEq, Repr

/-- The globals of the file and the part of the outside world the file acts on.

* `myNodeID`, `currentState`, `wakeupReason`, `onOffState`, `userReboot`,
  `switch_state`: the C globals of the same names; `adr` is the static local of
  `ZCB_OTAWrite`.
* `nvm`: the persisted store.
* `relay1`, `relay2`, `relay3`, `led_nwk`: the level last written with `Led` to
  pins D1, D2, D3, D6.
* `timers`, `nextHandle`: the timer service (see `ZW_TIMER_START`).
* `eventQueue`: the events given to `ZCB_EventSchedulerEventAdd`, oldest first.
* `calls`: every other SDK call, oldest first. -/
structure AppCtx where
  myNodeID : Nat
  currentState : STATE_APP
  onOffState : Nat
  userReboot : Bool
  switch_state : switch_state_t
  relay1 : Bool
  relay2 : Bool
  relay3 : Bool
  led_nwk : Bool
  timers : List Nat
  nextHandle : Nat
  eventQueue : List EVENT_APP
  calls : List Call
  wakeupReason : Nat
  adr : Nat
  nvm : NVM
  deriving DecidableEq, Repr

/-- What a call of a function that may loop forever leaves behind. -/
inductive Outcome where
  | returned (c : AppCtx)
  | spins (c : AppCtx)
  deriving DecidableEq, Repr

/-- The globals and the world at the end of the call (or throughout the endless
loop). -/
def Outcome.ctx : Outcome → AppCtx
  | .returned c => c
  | .spins c => c

/-- The globals as the C initialisers leave them (`myNodeID = 0`,
`currentState = STATE_APP_IDLE`, `userReboot = FALSE`, the rest zero), no timer
running, nothing queued, nothing called, a persisted store of zero bytes. -/
def initialCtx : AppCtx where
  myNodeID := 0
  currentState := .STATE_APP_IDLE
  onOffState := 0
  userReboot := false
  switch_state := ⟨false, false, false, false, 0⟩
  relay1 := false
  relay2 := false
  relay3 := false
  led_nwk := false
  timers := []
  nextHandle := 1
  eventQueue := []
  calls := []
  wakeupReason := 0
  adr := 0
  nvm := ⟨0, 0, 0, 0, 0⟩

/-! ## The SDK calls the source makes -/

/-- Append one call to the log. -/
def logCall (k : Call) (c : AppCtx) : AppCtx :=
  { c with calls := c.calls ++ [k] }

/-- The SDK call `Led(pin, ON/OFF)`: drives the pin; the level written is kept. -/
def Led (pin : LedPin) (level : Bool) (c : AppCtx) : AppCtx :=
  match pin with
  | .ZDP03A_LED_D1 => { logCall (.Led pin level) c with relay1 := level }
  | .ZDP03A_LED_D2 => { logCall (.Led pin level) c with relay2 := level }
  | .ZDP03A_LED_D3 => { logCall (.Led pin level) c with relay3 := level }
  | .ZDP03A_LED_D6 => { logCall (.Led pin level) c with led_nwk := level }

/-- The SDK call `SetPinOut(pin)`. -/
def SetPinOut (pin : LedPin) (c : AppCtx) : AppCtx := logCall (.SetPinOut pin) c

/-- The SDK call `SetPinIn(pin, pullUp)`. -/
def SetPinIn (pin : KeyPin) (pullUp : Bool) (c : AppCtx) : AppCtx :=
  logCall (.SetPinIn pin pullUp) c

/-- The SDK call `StartLearnModeNow(mode)`. -/
def StartLearnModeNow (mode : LEARN_MODE) (c : AppCtx) : AppCtx :=
  logCall (.StartLearnModeNow mode) c

/-- The SDK call `ZW_WatchDogEnable()`. -/
def ZW_WatchDogEnable (c : AppCtx) : AppCtx := logCall .ZW_WatchDogEnable c

/-- The SDK call `OtaHostFWU_WriteFinish()`. -/
def OtaHostFWU_WriteFinish (c : AppCtx) : AppCtx := logCall .OtaHostFWU_WriteFinish c

/-- The SDK call `OtaHostFWU_Status(userReboot, status)`. -/
def OtaHostFWU_Status (reboot : Bool) (status : Bool) (c : AppCtx) : AppCtx :=
  logCall (.OtaHostFWU_Status reboot status) c

/-- The SDK call `ZCB_EventSchedulerEventAdd(event)`: the event joins the queue. -/
def ZCB_EventSchedulerEventAdd (event : EVENT_APP) (c : AppCtx) : AppCtx :=
  { c with eventQueue := c.eventQueue ++ [event] }

/-- Modelled from the spec: the timer service of the SDK (`ZW_TIMER_START` and
`ZW_TIMER_CANCEL` of `ZW_timer_api.h`, not under `src/`).  The source starts
timers with callback `cb_timer_5s` only, so a running timer is its handle.
Starting a timer always succeeds and gives a handle that no other timer has
or had (`nextHandle` counts up), so a handle names one press for the whole run;
the handle is returned and the timer is running from then on. -/
def ZW_TIMER_START (ticks repeats : Nat) (c : AppCtx) : Nat × AppCtx :=
  (c.nextHandle,
   { logCall (.ZW_TIMER_START ticks repeats c.nextHandle) c with
     timers := c.timers ++ [c.nextHandle]
     nextHandle := c.nextHandle + 1 })

/-- Modelled from the spec: `ZW_TIMER_CANCEL(handle)` of the SDK timer service
stops the timer with that handle if it is running and does nothing otherwise. -/
def ZW_TIMER_CANCEL (handle : Nat) (c : AppCtx) : AppCtx :=
  { logCall (.ZW_TIMER_CANCEL handle) c with timers := c.timers.erase handle }

/-! ## The relay, LED and key macros -/

def relay1_pin_out (c : AppCtx) : AppCtx := SetPinOut .ZDP03A_LED_D1 c
def relay2_pin_out (c : AppCtx) : AppCtx := SetPinOut .ZDP03A_LED_D2 c
def relay3_pin_out (c : AppCtx) : AppCtx := SetPinOut .ZDP03A_LED_D3 c

def relay1_on (c : AppCtx) : AppCtx := Led .ZDP03A_LED_D1 true c
def relay1_off (c : AppCtx) : AppCtx := Led .ZDP03A_LED_D1 false c
def relay2_on (c : AppCtx) : AppCtx := Led .ZDP03A_LED_D2 true c
def relay2_off (c : AppCtx) : AppCtx := Led .ZDP03A_LED_D2 false c
def relay3_on (c : AppCtx) : AppCtx := Led .ZDP03A_LED_D3 true c
def relay3_off (c : AppCtx) : AppCtx := Led .ZDP03A_LED_D3 false c

/-- The macro `relay_init()`: the three relay pins become outputs, then the
three relays are switched off.  (In the source the line of `relay2_pin_out()`
has a blank between the backslash and the line end; the macro is read as the
one seven-line definition it is laid out as, which is the only reading under
which the file compiles.) -/
def relay_init (c : AppCtx) : AppCtx :=
  relay3_off (relay2_off (relay1_off (relay3_pin_out (relay2_pin_out (relay1_pin_out c)))))

def led_nwk_pin_out (c : AppCtx) : AppCtx := SetPinOut .ZDP03A_LED_D6 c
def led_nwk_on (c : AppCtx) : AppCtx := Led .ZDP03A_LED_D6 true c
def led_nwk_off (c : AppCtx) : AppCtx := Led .ZDP03A_LED_D6 false c

/-- The macro `led_init()`. -/
def led_init (c : AppCtx) : AppCtx := led_nwk_off (led_nwk_pin_out c)

/-- The macro `key_init()`. -/
def key_init (c : AppCtx) : AppCtx :=
  SetPinIn .ZDP03A_KEY_3 true (SetPinIn .ZDP03A_KEY_2 true (SetPinIn .ZDP03A_KEY_1 true c))

/-- The macro `switch_init()`: relays, LED and keys are set up, then the three
channel bits are cleared. -/
def switch_init (c : AppCtx) : AppCtx :=
  let c1 := key_init (led_init (relay_init c))
  { c1 with switch_state := { c1.switch_state with s1 := false, s2 := false, s3 := false } }

/-! ## Channel setters and getters -/

/-- The function `s1_state_set(BYTE sta)`: a non-zero byte switches relay 1 on and
sets the bit, zero switches it off and clears the bit. -/
def s1_state_set (sta : Nat) (c : AppCtx) : AppCtx :=
  if sta % 256 ≠ 0 then
    let c1 := relay1_on c
    { c1 with switch_state := { c1.switch_state with s1 := true } }
  else
    let c1 := relay1_off c
    { c1 with switch_state := { c1.switch_state with s1 := false } }

/-- The function `s2_state_set(BYTE sta)`. -/
def s2_state_set (sta : Nat) (c : AppCtx) : AppCtx :=
  if sta % 256 ≠ 0 then
    let c1 := relay2_on c
    { c1 with switch_state := { c1.switch_state with s2 := true } }
  else
    let c1 := relay2_off c
    { c1 with switch_state := { c1.switch_state with s2 := false } }

/-- The function `s3_state_set(BYTE sta)`. -/
def s3_state_set (sta : Nat) (c : AppCtx) : AppCtx :=
  if sta % 256 ≠ 0 then
    let c1 := relay3_on c
    { c1 with switch_state := { c1.switch_state with s3 := true } }
  else
    let c1 := relay3_off c
    { c1 with switch_state := { c1.switch_state with s3 := false } }

/-- The macro `s1_state_get()`: the bit as a byte, 0 or 1. -/
def s1_state_get (c : AppCtx) : Nat := if c.switch_state.s1 then 1 else 0
/-- The macro `s2_state_get()`. -/
def s2_state_get (c : AppCtx) : Nat := if c.switch_state.s2 then 1 else 0
/-- The macro `s3_state_get()`. -/
def s3_state_get (c : AppCtx) : Nat := if c.switch_state.s3 then 1 else 0

/-- The C expression `!bit` for a one-bit field: 1 when the bit is 0, else 0. -/
def lnot (b : Bool) : Nat := if b then 0 else 1

/-- The function `handleAppltBinarySwitchGet(BYTE endpoint)`. -/
def handleAppltBinarySwitchGet (endpoint : Nat) (c : AppCtx) : Nat :=
  if endpoint = 0 then s1_state_get c
  else if endpoint = 1 then s2_state_get c
  else if endpoint = 2 then s3_state_get c
  else 0

/-- The function `handleApplBinarySwitchSet(val, endpoint)`. -/
def handleApplBinarySwitchSet (val : Nat) (endpoint : Nat) (c : AppCtx) : AppCtx :=
  if endpoint = 0 then s1_state_set val c
  else if endpoint = 1 then s2_state_set val c
  else if endpoint = 2 then s3_state_set val c
  else c

/-- The function `handleSwitchAll(val, endpoint)`: the endpoint is unused. -/
def handleSwitchAll (val : Nat) (_endpoint : Nat) (c : AppCtx) : AppCtx :=
  s3_state_set val (s2_state_set val (s1_state_set val c))

/-- The function `getAppBasicReport(endpoint)`. -/
def getAppBasicReport (endpoint : Nat) (c : AppCtx) : Nat :=
  handleAppltBinarySwitchGet endpoint c

/-- The function `getAppBasicReportTarget(endpoint)`. -/
def getAppBasicReportTarget (endpoint : Nat) (c : AppCtx) : Nat :=
  handleAppltBinarySwitchGet endpoint c

/-- The three channel bits. -/
def outputs (c : AppCtx) : Bool × Bool × Bool :=
  (c.switch_state.s1, c.switch_state.s2, c.switch_state.s3)

/-- The levels last written to the three relays. -/
def relays (c : AppCtx) : Bool × Bool × Bool := (c.relay1, c.relay2, c.relay3)

/-- For each channel, the level last written to its relay is its bit. -/
def RelaysAgree (c : AppCtx) : Prop := relays c = outputs c

/-- Between two contexts, each channel either kept both its relay level and its
bit, or ends with the relay level equal to the bit: no relay was written
without the bit and no bit without the relay. -/
def ChannelsMoveTogether (c c1 : AppCtx) : Prop :=
  ((c1.relay1 = c.relay1 ∧ c1.switch_state.s1 = c.switch_state.s1) ∨
    c1.relay1 = c1.switch_state.s1) ∧
  ((c1.relay2 = c.relay2 ∧ c1.switch_state.s2 = c.switch_state.s2) ∨
    c1.relay2 = c1.switch_state.s2) ∧
  ((c1.relay3 = c.relay3 ∧ c1.switch_state.s3 = c.switch_state.s3) ∨
    c1.relay3 = c1.switch_state.s3)

/-! ## The state machine -/

/-- The function `ChangeState(newState)`: assigns the state and queues a refresh
event. -/
def ChangeState (newState : STATE_APP) (c : AppCtx) : AppCtx :=
  ZCB_EventSchedulerEventAdd .EVENT_APP_REFRESH_MMI { c with currentState := newState }

/-- The function `GetAppState()`. -/
def GetAppState (c : AppCtx) : STATE_APP := c.currentState

/-- The timer callback `cb_timer_5s()`: sets the long-press flag, starts exclusion
when the node has an identifier and inclusion when it has none, enters learn
mode and lights the network LED. -/
def cb_timer_5s (c : AppCtx) : AppCtx :=
  let c1 := { c with switch_state := { c.switch_state with learn := true } }
  let c2 :=
    if c1.myNodeID ≠ 0 then StartLearnModeNow .LEARN_MODE_EXCLUSION_NWE c1
    else StartLearnModeNow .LEARN_MODE_INCLUSION c1
  led_nwk_on (ChangeState .STATE_APP_LEARN_MODE c2)

/-- The function `AppStateManager(event)`.  The watchdog test comes first and
falls through into the `switch` on the (possibly just changed) state; the
`STATE_APP_WATCHDOG_RESET` case ends in `for (;;) {}` and so never returns. -/
def AppStateManager (event : EVENT_APP) (c0 : AppCtx) : Outcome :=
  let c :=
    if event = .EVENT_SYSTEM_WATCHDOG_RESET then ChangeState .STATE_APP_WATCHDOG_RESET c0
    else c0
  match c.currentState with
  | .STATE_APP_STARTUP => .returned (ChangeState .STATE_APP_IDLE c)
  | .STATE_APP_IDLE =>
    if event = .EVENT_SYSTEM_LEARNMODE_START then
      let c1 :=
        if c.myNodeID ≠ 0 then StartLearnModeNow .LEARN_MODE_EXCLUSION_NWE c
        else StartLearnModeNow .LEARN_MODE_INCLUSION c
      .returned (led_nwk_on (ChangeState .STATE_APP_LEARN_MODE c1))
    else if event = .EVENT_KEY1_DOWN ∨ event = .EVENT_KEY2_DOWN ∨ event = .EVENT_KEY3_DOWN then
      let r := ZW_TIMER_START 500 1 c
      let c1 := { r.2 with switch_state := { r.2.switch_state with tmr_handle := r.1 } }
      .returned { c1 with switch_state := { c1.switch_state with learn := false } }
    else if event = .EVENT_KEY1_UP then
      if c.switch_state.learn = false then
        let c1 := ZW_TIMER_CANCEL c.switch_state.tmr_handle c
        .returned (s1_state_set (lnot c1.switch_state.s1) c1)
      else .returned c
    else if event = .EVENT_KEY2_UP then
      if c.switch_state.learn = false then
        let c1 := ZW_TIMER_CANCEL c.switch_state.tmr_handle c
        .returned (s2_state_set (lnot c1.switch_state.s2) c1)
      else .returned c
    else if event = .EVENT_KEY3_UP then
      if c.switch_state.learn = false then
        let c1 := ZW_TIMER_CANCEL c.switch_state.tmr_handle c
        .returned (s3_state_set (lnot c1.switch_state.s3) c1)
      else .returned c
    else .returned c
  | .STATE_APP_LEARN_MODE =>
    if event = .EVENT_SYSTEM_LEARNMODE_END then
      .returned (led_nwk_off (ChangeState .STATE_APP_IDLE (StartLearnModeNow .LEARN_MODE_DISABLE c)))
    else if event = .EVENT_SYSTEM_LEARNMODE_FINISH then
      .returned (led_nwk_off (ChangeState .STATE_APP_IDLE c))
    else .returned c
  | .STATE_APP_WATCHDOG_RESET => .spins (ZW_WatchDogEnable c)
  | .STATE_APP_OTA => .returned c
  | .STATE_APP_OTA_HOST =>
    let c1 := if event = .EVENT_APP_OTA_HOST_WRITE_DONE then OtaHostFWU_WriteFinish c else c
    if event = .EVENT_APP_OTA_HOST_STATUS then
      let c2 := { c1 with userReboot := false }
      .returned (OtaHostFWU_Status c2.userReboot true c2)
    else .returned c1

/-! ## Persisted configuration, boot and callbacks -/

/-- Modelled from the spec: `MemoryGetByte(address)` of the SDK reads one byte of
the persisted store. -/
def MemoryGetByte (addr : NvmAddr) (c : AppCtx) : Nat :=
  match addr with
  | .EEOFFSET_MAGIC_far => c.nvm.EEOFFSET_MAGIC_far % 256
  | .OnOffState_far => c.nvm.OnOffState_far % 256
  | .EEOFFSET_SWITCH_ALL_MODE_far => c.nvm.EEOFFSET_SWITCH_ALL_MODE_far % 256
  | .EEOFFS_MAGIC_BYTE_field => c.nvm.EEOFFS_MAGIC_BYTE_field % 256

/-- Modelled from the spec: `MemoryPutByte(address, value)` of the SDK (and the
macro `ZW_MEM_PUT_BYTE`) writes one byte of the persisted store; the write is
logged. -/
def MemoryPutByte (addr : NvmAddr) (value : Nat) (c : AppCtx) : AppCtx :=
  let c1 := logCall (.MemoryPutByte addr (value % 256)) c
  match addr with
  | .EEOFFSET_MAGIC_far => { c1 with nvm := { c1.nvm with EEOFFSET_MAGIC_far := value % 256 } }
  | .OnOffState_far => { c1 with nvm := { c1.nvm with OnOffState_far := value % 256 } }
  | .EEOFFSET_SWITCH_ALL_MODE_far =>
    { c1 with nvm := { c1.nvm with EEOFFSET_SWITCH_ALL_MODE_far := value % 256 } }
  | .EEOFFS_MAGIC_BYTE_field =>
    { c1 with nvm := { c1.nvm with EEOFFS_MAGIC_BYTE_field := value % 256 } }

/-- The SDK macro `ZW_MEM_PUT_BYTE(address, value)`. -/
def ZW_MEM_PUT_BYTE (addr : NvmAddr) (value : Nat) (c : AppCtx) : AppCtx :=
  MemoryPutByte addr value c

/-- Modelled from the spec: `MemoryGetID(NULL, &myNodeID)` of the SDK stores the
node identifier kept by the protocol into `myNodeID`. -/
def MemoryGetID (c : AppCtx) : AppCtx :=
  { logCall .MemoryGetID c with myNodeID := c.nvm.nodeID % 256 }

/-- The SDK call `AssociationInit(forceClearMem)`; with `TRUE` it clears the
association state.  Like every other SDK call that is only logged, it is taken
not to write the four bytes of `NVM` that the source names. -/
def AssociationInit (forceClearMem : Bool) (c : AppCtx) : AppCtx :=
  logCall (.AssociationInit forceClearMem) c

/-- Modelled from the spec: the broadcast node identifier `NODE_BROADCAST` of the
SDK; the source's comment at its use says `0xff`. -/
def NODE_BROADCAST : Nat := 0xFF

/-- The function `RefreshMMI()`: its body is commented out in the source. -/
def RefreshMMI (c : AppCtx) : AppCtx := c

/-- The function `SetDefaultConfiguration()`: clears the in-memory on/off value
and writes it, the sentinel and the switch-all mode to the persisted store. -/
def SetDefaultConfiguration (k : Consts) (c : AppCtx) : AppCtx :=
  let c1 := { c with onOffState := 0 }
  let c2 := MemoryPutByte .OnOffState_far c1.onOffState c1
  let c3 := MemoryPutByte .EEOFFSET_MAGIC_far k.APPL_MAGIC_VALUE c2
  MemoryPutByte .EEOFFSET_SWITCH_ALL_MODE_far
    k.SWITCH_ALL_REPORT_INCLUDED_IN_THE_ALL_ON_ALL_OFF_FUNCTIONALITY c3

/-- The function `LoadConfiguration(nvmStatus)` (build with `BOOTLOADER_ENABLED`,
so `NvmInit` is called). -/
def LoadConfiguration (k : Consts) (nvmStatus : Nat) (c : AppCtx) : AppCtx :=
  let c1 := MemoryGetID c
  let c2 := logCall .ManufacturerSpecificDeviceIDInit c1
  let c3 := logCall (.NvmInit nvmStatus) c2
  let magicValue := MemoryGetByte .EEOFFSET_MAGIC_far c3
  let c4 :=
    if k.APPL_MAGIC_VALUE = magicValue then
      let d1 := logCall .loadStatusPowerLevel c3
      let d2 := { d1 with onOffState := MemoryGetByte .OnOffState_far d1 }
      AssociationInit false d2
    else
      let d1 := ZW_MEM_PUT_BYTE .EEOFFS_MAGIC_BYTE_field k.EEPROM_MAGIC_BYTE_VALUE c3
      let d2 := logCall .Transport_SetDefault d1
      let d3 := logCall .ZW_SetDefault d2
      let d4 := SetDefaultConfiguration k d3
      let d5 := AssociationInit true d4
      logCall .loadInitStatusPowerLevel d5
  RefreshMMI c4

/-- The function `ApplicationInitHW(bWakeupReason)`; it returns `TRUE`. -/
def ApplicationInitHW (bWakeupReason : Nat) (c : AppCtx) : Bool × AppCtx :=
  let c1 := { c with wakeupReason := bWakeupReason }
  let c2 := logCall .ZDP03A_InitHW c1
  let c3 := switch_init c2
  (true, logCall (.Transport_OnApplicationInitHW bWakeupReason) c3)

/-- The function `ApplicationInitSW(nvmStatus)`; it returns `TRUE`.  The state is
assigned directly, not through `ChangeState`. -/
def ApplicationInitSW (k : Consts) (nvmStatus : Nat) (c : AppCtx) : Bool × AppCtx :=
  let c1 := { c with currentState := .STATE_APP_STARTUP }
  let c2 := if k.WATCHDOG_ENABLED then ZW_WatchDogEnable c1 else c1
  let c3 := LoadConfiguration k nvmStatus c2
  let c4 := logCall .AGI_Init c3
  let c5 := logCall .AGI_LifeLineGroupSetup c4
  let c6 := logCall .OtaInit c5
  let c7 := logCall .EventSchedulerInit c6
  let c8 := logCall .Transport_OnApplicationInitSW c7
  (true, ZCB_EventSchedulerEventAdd (.EVENT_WAKEUP c8.wakeupReason) c8)

/-- The function `LearnCompleted(bNodeID)`. -/
def LearnCompleted (k : Consts) (bNodeID : Nat) (c : AppCtx) : AppCtx :=
  let c1 :=
    if bNodeID ≠ NODE_BROADCAST then
      let d1 := { c with myNodeID := bNodeID }
      if 0 = d1.myNodeID then SetDefaultConfiguration k (AssociationInit true d1) else d1
    else c
  let c2 := ZCB_EventSchedulerEventAdd .EVENT_SYSTEM_LEARNMODE_FINISH c1
  logCall (.Transport_OnLearnCompleted bNodeID) c2

/-- The callback `ZCB_OTAFinish(otaStatus)`; it ends in `while(1);` when the
status is done (unless the host asked to reboot itself), so it may not return. -/
def ZCB_OTAFinish (otaStatus : OTA_STATUS) (c : AppCtx) : Outcome :=
  if GetAppState c = .STATE_APP_OTA_HOST then
    let c1 := ChangeState .STATE_APP_IDLE c
    if c1.userReboot then .returned { c1 with userReboot := false }
    else if otaStatus = .OTA_STATUS_DONE then .spins (ZW_WatchDogEnable c1)
    else .returned c1
  else if otaStatus = .OTA_STATUS_DONE then .spins (ZW_WatchDogEnable c)
  else .returned c

/-- The callback `ZCB_OTAStart()`: the returned flag and the globals.  -/
def ZCB_OTAStart (c : AppCtx) : Bool × AppCtx :=
  if GetAppState c = .STATE_APP_IDLE then
    (true, ZCB_EventSchedulerEventAdd .EVENT_SYSTEM_OTA_START c)
  else (false, c)

/-- The callback `ZCB_OTAWrite(pData, len)`: the data is only printed by the
debug macros, so only the byte `len` is a parameter. -/
def ZCB_OTAWrite (len : Nat) (c : AppCtx) : AppCtx :=
  let c1 := if GetAppState c = .STATE_APP_IDLE then ChangeState .STATE_APP_OTA_HOST c else c
  if len % 256 ≠ 0 then
    ZCB_EventSchedulerEventAdd .EVENT_APP_OTA_HOST_WRITE_DONE
      { c1 with adr := (c1.adr + len % 256) % 65536 }
  else ZCB_EventSchedulerEventAdd .EVENT_APP_OTA_HOST_STATUS c1

/-- Boot: `ApplicationInitHW` then `ApplicationInitSW`, as the SDK calls them. -/
def boot (k : Consts) (bWakeupReason nvmStatus : Nat) (c : AppCtx) : AppCtx :=
  (ApplicationInitSW k nvmStatus (ApplicationInitHW bWakeupReason c).2).2

/-- One choice of the header constants, for concrete evaluations: sentinel 0x56,
security magic byte 0x56, switch-all mode 0xFF, watchdog not compiled in. -/
def sampleConsts : Consts := ⟨0x56, 0x56, 0xFF, false⟩

/-- The number of refresh events in a queue. -/
def refreshCount (q : List EVENT_APP) : Nat := q.count .EVENT_APP_REFRESH_MMI

/-! ## Runs: events and timer expiries, one at a time -/

/-- Modelled from the spec: expiry of the one-shot timer with handle `h`.  A
timer that is running is consumed and its callback `cb_timer_5s` runs once; a
timer that is not running (never started, cancelled, or already expired) cannot
expire. -/
def timerExpire (h : Nat) (c : AppCtx) : AppCtx :=
  if h ∈ c.timers then cb_timer_5s { c with timers := c.timers.erase h } else c

/-- What the poll loop handles next: an event taken from the queue, or the
expiry of a timer. -/
inductive Input where
  | event (e : EVENT_APP)
  | timeout (h : Nat)
  deriving DecidableEq, Repr

/-- Handle one input. -/
def step (i : Input) (c : AppCtx) : Outcome :=
  match i with
  | .event e => AppStateManager e c
  | .timeout h => .returned (timerExpire h c)

/-- Handle the inputs in order, each to completion before the next; once a step
spins, nothing further is handled. -/
def run : List Input → AppCtx → Outcome
  | [], c => .returned c
  | i :: rest, c =>
    match step i c with
    | .returned c1 => run rest c1
    | .spins c1 => .spins c1

/-- The number of times `cb_timer_5s` runs for the timer with handle `h` while
the inputs are handled: the expiries of `h` that find the timer running. -/
def cbRuns (h : Nat) : List Input → AppCtx → Nat
  | [], _ => 0
  | i :: rest, c =>
    (if i = .timeout h ∧ h ∈ c.timers then 1 else 0) +
      (match step i c with
       | .returned c1 => cbRuns h rest c1
       | .spins _ => 0)

/-- The release event of the key of channel `k` (0, 1, 2). -/
def keyUpEvent (k : Nat) : EVENT_APP :=
  if k = 0 then .EVENT_KEY1_UP else if k = 1 then .EVENT_KEY2_UP else .EVENT_KEY3_UP

/-- The press event of the key of channel `k` (0, 1, 2). -/
def keyDownEvent (k : Nat) : EVENT_APP :=
  if k = 0 then .EVENT_KEY1_DOWN else if k = 1 then .EVENT_KEY2_DOWN else .EVENT_KEY3_DOWN

/-- Whether the event is one of the three key-press events. -/
def isKeyDown : EVENT_APP → Bool
  | .EVENT_KEY1_DOWN => true
  | .EVENT_KEY2_DOWN => true
  | .EVENT_KEY3_DOWN => true
  | _ => false

/-- Whether the event is one of the three key-release events. -/
def isKeyUp : EVENT_APP → Bool
  | .EVENT_KEY1_UP => true
  | .EVENT_KEY2_UP => true
  | .EVENT_KEY3_UP => true
  | _ => false

/-- The running timers have pairwise different handles, all handed out already. -/
def TimersWF (c : AppCtx) : Prop :=
  c.timers.Nodup ∧ ∀ x ∈ c.timers, x < c.nextHandle

/-- An input that neither cancels a timer nor halts the machine nor is the
expiry of timer `h`: no key release, no watchdog-reset event, no expiry of `h`. -/
def leavesTimer (h : Nat) : Input → Bool
  | .event e => !isKeyUp e && decide (e ≠ .EVENT_SYSTEM_WATCHDOG_RESET)
  | .timeout h1 => decide (h1 ≠ h)

/-- The events the branch of a state acts on (the watchdog-reset event is tested
before the `switch` and belongs to no branch).  Startup and WatchdogReset act
on every event. -/
def branchActsOn : STATE_APP → EVENT_APP → Bool
  | .STATE_APP_STARTUP, _ => true
  | .STATE_APP_WATCHDOG_RESET, _ => true
  | .STATE_APP_IDLE, e =>
    decide (e = .EVENT_SYSTEM_LEARNMODE_START) || isKeyDown e || isKeyUp e
  | .STATE_APP_LEARN_MODE, e =>
    decide (e = .EVENT_SYSTEM_LEARNMODE_END) || decide (e = .EVENT_SYSTEM_LEARNMODE_FINISH)
  | .STATE_APP_OTA, _ => false
  | .STATE_APP_OTA_HOST, e =>
    decide (e = .EVENT_APP_OTA_HOST_WRITE_DONE) || decide (e = .EVENT_APP_OTA_HOST_STATUS)

/-! ## Lemmas on single steps and runs -/

/-- The setter of channel 0 as one record update. -/
theorem s1_state_set_eq (v : Nat) (c : AppCtx) :
    s1_state_set v c = { c with
      relay1 := decide (v % 256 ≠ 0)
      switch_state := { c.switch_state with s1 := decide (v % 256 ≠ 0) }
      calls := c.calls ++ [.Led .ZDP03A_LED_D1 (decide (v % 256 ≠ 0))] } := by
  by_cases hv : v % 256 = 0 <;> simp [s1_state_set, relay1_on, relay1_off, Led, logCall, hv]

/-- The setter of channel 1 as one record update. -/
theorem s2_state_set_eq (v : Nat) (c : AppCtx) :
    s2_state_set v c = { c with
      relay2 := decide (v % 256 ≠ 0)
      switch_state := { c.switch_state with s2 := decide (v % 256 ≠ 0) }
      calls := c.calls ++ [.Led .ZDP03A_LED_D2 (decide (v % 256 ≠ 0))] } := by
  by_cases hv : v % 256 = 0 <;> simp [s2_state_set, relay2_on, relay2_off, Led, logCall, hv]

/-- The setter of channel 2 as one record update. -/
theorem s3_state_set_eq (v : Nat) (c : AppCtx) :
    s3_state_set v c = { c with
      relay3 := decide (v % 256 ≠ 0)
      switch_state := { c.switch_state with s3 := decide (v % 256 ≠ 0) }
      calls := c.calls ++ [.Led .ZDP03A_LED_D3 (decide (v % 256 ≠ 0))] } := by
  by_cases hv : v % 256 = 0 <;> simp [s3_state_set, relay3_on, relay3_off, Led, logCall, hv]

/-- The key-press events are exactly the three named ones. -/
theorem isKeyDown_iff (e : EVENT_APP) :
    isKeyDown e = true ↔
      (e = .EVENT_KEY1_DOWN ∨ e = .EVENT_KEY2_DOWN ∨ e = .EVENT_KEY3_DOWN) := by
  cases e <;> simp [isKeyDown]

/-- The key-release events are exactly the three named ones. -/
theorem isKeyUp_iff (e : EVENT_APP) :
    isKeyUp e = true ↔ (e = .EVENT_KEY1_UP ∨ e = .EVENT_KEY2_UP ∨ e = .EVENT_KEY3_UP) := by
  cases e <;> simp [isKeyUp]

/-- What one call of `AppStateManager` does to the timer service: nothing, or (a
key press in Idle) one timer started whose handle is stored, or (a key release)
the stored handle cancelled. -/
theorem AppStateManager_timers (e : EVENT_APP) (c : AppCtx) :
    ((AppStateManager e c).ctx.timers = c.timers ∧
      (AppStateManager e c).ctx.nextHandle = c.nextHandle) ∨
    (isKeyDown e = true ∧ c.currentState = .STATE_APP_IDLE ∧
      (AppStateManager e c).ctx.timers = c.timers ++ [c.nextHandle] ∧
      (AppStateManager e c).ctx.nextHandle = c.nextHandle + 1 ∧
      (AppStateManager e c).ctx.switch_state.tmr_handle = c.nextHandle) ∨
    (isKeyUp e = true ∧
      (AppStateManager e c).ctx.timers = c.timers.erase c.switch_state.tmr_handle ∧
      (AppStateManager e c).ctx.nextHandle = c.nextHandle) := by
  unfold AppStateManager
  by_cases hw : e = .EVENT_SYSTEM_WATCHDOG_RESET
  · subst hw
    simp [ChangeState, ZCB_EventSchedulerEventAdd, ZW_WatchDogEnable, logCall, Outcome.ctx]
  · simp only [hw, if_false]
    cases hc : c.currentState <;> simp only [] <;> (try split_ifs) <;>
      simp_all [Outcome.ctx, ChangeState, ZCB_EventSchedulerEventAdd,
        StartLearnModeNow, ZW_WatchDogEnable, OtaHostFWU_WriteFinish, OtaHostFWU_Status,
        ZW_TIMER_START, ZW_TIMER_CANCEL, s1_state_set_eq, s2_state_set_eq, s3_state_set_eq,
        led_nwk_on, led_nwk_off, Led, logCall, isKeyDown_iff, isKeyUp_iff]

/-- The state machine never writes `myNodeID`. -/
theorem AppStateManager_myNodeID (e : EVENT_APP) (c : AppCtx) :
    (AppStateManager e c).ctx.myNodeID = c.myNodeID := by
  unfold AppStateManager
  by_cases hw : e = .EVENT_SYSTEM_WATCHDOG_RESET
  · subst hw
    simp [ChangeState, ZCB_EventSchedulerEventAdd, ZW_WatchDogEnable, logCall, Outcome.ctx]
  · simp only [hw, if_false]
    cases hc : c.currentState <;> simp only [] <;> (try split_ifs) <;>
      simp [Outcome.ctx, ChangeState, ZCB_EventSchedulerEventAdd,
        StartLearnModeNow, ZW_WatchDogEnable, OtaHostFWU_WriteFinish, OtaHostFWU_Status,
        ZW_TIMER_START, ZW_TIMER_CANCEL, s1_state_set_eq, s2_state_set_eq, s3_state_set_eq,
        led_nwk_on, led_nwk_off, Led, logCall]

/-- Away from the watchdog-reset event and state, `AppStateManager` returns and
does not enter WatchdogReset. -/
theorem AppStateManager_returns (e : EVENT_APP) (c : AppCtx)
    (he : e ≠ .EVENT_SYSTEM_WATCHDOG_RESET)
    (hs : c.currentState ≠ .STATE_APP_WATCHDOG_RESET) :
    ∃ c1, AppStateManager e c = .returned c1 ∧
      c1.currentState ≠ .STATE_APP_WATCHDOG_RESET := by
  unfold AppStateManager
  simp only [he, if_false]
  cases hc : c.currentState <;> simp only [] <;> (try split_ifs) <;>
    simp_all [ChangeState, ZCB_EventSchedulerEventAdd,
      StartLearnModeNow, OtaHostFWU_WriteFinish, OtaHostFWU_Status,
      ZW_TIMER_START, ZW_TIMER_CANCEL, s1_state_set_eq, s2_state_set_eq, s3_state_set_eq,
      led_nwk_on, led_nwk_off, Led, logCall]

/-- The timer callback as one record update. -/
theorem cb_timer_5s_eq (c : AppCtx) :
    cb_timer_5s c = { c with
      switch_state := { c.switch_state with learn := true }
      currentState := .STATE_APP_LEARN_MODE
      led_nwk := true
      eventQueue := c.eventQueue ++ [.EVENT_APP_REFRESH_MMI]
      calls := c.calls ++
        [.StartLearnModeNow
            (if c.myNodeID ≠ 0 then .LEARN_MODE_EXCLUSION_NWE else .LEARN_MODE_INCLUSION),
         .Led .ZDP03A_LED_D6 true] } := by
  by_cases hn : c.myNodeID = 0 <;>
    simp [cb_timer_5s, hn, ChangeState, ZCB_EventSchedulerEventAdd, StartLearnModeNow,
      led_nwk_on, Led, logCall]

/-- An expiry removes the timer from the running ones (if it was there). -/
theorem timerExpire_timers (h : Nat) (c : AppCtx) :
    (timerExpire h c).timers = c.timers.erase h := by
  unfold timerExpire
  split
  · simp [cb_timer_5s_eq]
  · next hm => exact (List.erase_of_not_mem hm).symm

/-- An expiry hands out no handle. -/
theorem timerExpire_nextHandle (h : Nat) (c : AppCtx) :
    (timerExpire h c).nextHandle = c.nextHandle := by
  unfold timerExpire
  split <;> simp [cb_timer_5s_eq]

/-- An expiry does not write `myNodeID`. -/
theorem timerExpire_myNodeID (h : Nat) (c : AppCtx) :
    (timerExpire h c).myNodeID = c.myNodeID := by
  unfold timerExpire
  split <;> simp [cb_timer_5s_eq]

/-- An expiry does not enter WatchdogReset. -/
theorem timerExpire_state (h : Nat) (c : AppCtx)
    (hs : c.currentState ≠ .STATE_APP_WATCHDOG_RESET) :
    (timerExpire h c).currentState ≠ .STATE_APP_WATCHDOG_RESET := by
  unfold timerExpire
  split <;> simp [cb_timer_5s_eq, hs]

/-- No step writes `myNodeID`. -/
theorem step_myNodeID (i : Input) (c : AppCtx) : (step i c).ctx.myNodeID = c.myNodeID := by
  cases i with
  | event e => exact AppStateManager_myNodeID e c
  | timeout h => exact timerExpire_myNodeID h c

/-- No run writes `myNodeID`. -/
theorem run_myNodeID (l : List Input) (c : AppCtx) : (run l c).ctx.myNodeID = c.myNodeID := by
  induction l generalizing c with
  | nil => rfl
  | cons i rest ih =>
    have h1 := step_myNodeID i c
    unfold run
    cases hstep : step i c with
    | returned c1 =>
      rw [hstep] at h1
      simpa [Outcome.ctx, ← h1] using ih c1
    | spins c1 =>
      rw [hstep] at h1
      simpa [Outcome.ctx] using h1

/-- Every step keeps the running timers well formed. -/
theorem step_TimersWF (i : Input) (c : AppCtx) (hwf : TimersWF c) :
    TimersWF (step i c).ctx := by
  obtain ⟨hnd, hlt⟩ := hwf
  cases i with
  | event e =>
    rcases AppStateManager_timers e c with ⟨ht, hn⟩ | ⟨_, _, ht, hn, _⟩ | ⟨_, ht, hn⟩
    · simp only [step, TimersWF, ht, hn]
      exact ⟨hnd, hlt⟩
    · simp only [step, TimersWF, ht, hn]
      refine ⟨?_, ?_⟩
      · rw [List.nodup_append]
        refine ⟨hnd, List.nodup_singleton _, ?_⟩
        intro x hx hx1
        rw [List.mem_singleton] at hx1
        subst hx1
        exact absurd (hlt _ hx) (lt_irrefl _)
      · intro x hx
        rw [List.mem_append, List.mem_singleton] at hx
        rcases hx with hx | hx
        · exact Nat.lt_succ_of_lt (hlt x hx)
        · subst hx
          exact Nat.lt_succ_self _
    · simp only [step, TimersWF, ht, hn]
      exact ⟨hnd.erase _, fun x hx => hlt x (List.mem_of_mem_erase hx)⟩
  | timeout h =>
    simp only [step, Outcome.ctx, TimersWF, timerExpire_timers, timerExpire_nextHandle]
    exact ⟨hnd.erase _, fun x hx => hlt x (List.mem_of_mem_erase hx)⟩

/-- The callback count of a run in two parts. -/
theorem cbRuns_append (h : Nat) (xs ys : List Input) (c : AppCtx) :
    cbRuns h (xs ++ ys) c =
      cbRuns h xs c +
        (match run xs c with
         | .returned c2 => cbRuns h ys c2
         | .spins _ => 0) := by
  induction xs generalizing c with
  | nil => simp [cbRuns, run]
  | cons i rest ih =>
    simp only [List.cons_append, cbRuns, run]
    cases hstep : step i c with
    | returned c1 =>
      rw [Nat.add_assoc]
      congr 1
      exact ih c1
    | spins c1 => simp

/-- While no input cancels a timer, halts the machine or is the expiry of the
running timer `h`, the run returns, `h` stays running and its callback has not
run. -/
theorem run_keeps_timer (h : Nat) (mid : List Input) (c : AppCtx)
    (hmid : ∀ i ∈ mid, leavesTimer h i = true)
    (hs : c.currentState ≠ .STATE_APP_WATCHDOG_RESET)
    (hwf : TimersWF c) (hh : h ∈ c.timers) :
    ∃ c2, run mid c = .returned c2 ∧ c2.currentState ≠ .STATE_APP_WATCHDOG_RESET ∧
      TimersWF c2 ∧ h ∈ c2.timers ∧ cbRuns h mid c = 0 := by
  induction mid generalizing c with
  | nil => exact ⟨c, rfl, hs, hwf, hh, rfl⟩
  | cons i rest ih =>
    have hi : leavesTimer h i = true := hmid i (List.mem_cons_self _ _)
    have hrest : ∀ j ∈ rest, leavesTimer h j = true :=
      fun j hj => hmid j (List.mem_cons_of_mem _ hj)
    have hwf1 := step_TimersWF i c hwf
    cases i with
    | event e =>
      simp only [leavesTimer, Bool.and_eq_true, Bool.not_eq_true', decide_eq_true_eq] at hi
      obtain ⟨hup, hwd⟩ := hi
      obtain ⟨c1, hc1, hs1⟩ := AppStateManager_returns e c hwd hs
      have hmem : h ∈ c1.timers := by
        have ht := AppStateManager_timers e c
        rw [hc1] at ht
        simp only [Outcome.ctx] at ht
        rcases ht with ⟨ht, _⟩ | ⟨_, _, ht, _, _⟩ | ⟨hu, _, _⟩
        · rw [ht]; exact hh
        · rw [ht]; exact List.mem_append_left _ hh
        · rw [hup] at hu; exact absurd hu (by decide)
      have hwf2 : TimersWF c1 := by
        simpa [step, hc1, Outcome.ctx] using hwf1
      obtain ⟨c2, hrun, hs2, hwf3, hmem2, hcnt⟩ := ih c1 hrest hs1 hwf2 hmem
      refine ⟨c2, ?_, hs2, hwf3, hmem2, ?_⟩
      · simp [run, step, hc1, hrun]
      · simp [cbRuns, step, hc1, hcnt]
    | timeout h1 =>
      simp only [leavesTimer, decide_eq_true_eq] at hi
      have hmem : h ∈ (timerExpire h1 c).timers := by
        rw [timerExpire_timers]
        exact (List.mem_erase_of_ne (Ne.symm hi)).mpr hh
      have hwf2 : TimersWF (timerExpire h1 c) := by
        simpa [step, Outcome.ctx] using hwf1
      obtain ⟨c2, hrun, hs2, hwf3, hmem2, hcnt⟩ :=
        ih (timerExpire h1 c) hrest (timerExpire_state h1 c hs) hwf2 hmem
      refine ⟨c2, ?_, hs2, hwf3, hmem2, ?_⟩
      · simp [run, step, hrun]
      · simp [cbRuns, step, hcnt, hi]

/-- A timer that is not running and whose handle was handed out before never
runs its callback, whatever is handled next. -/
theorem cbRuns_of_not_running (h : Nat) (post : List Input) (c : AppCtx)
    (hn : h ∉ c.timers) (hlt : h < c.nextHandle) : cbRuns h post c = 0 := by
  induction post generalizing c with
  | nil => rfl
  | cons i rest ih =>
    have hnext : h ∉ (step i c).ctx.timers ∧ h < (step i c).ctx.nextHandle := by
      cases i with
      | event e =>
        rcases AppStateManager_timers e c with ⟨ht, hx⟩ | ⟨_, _, ht, hx, _⟩ | ⟨_, ht, hx⟩
        · simp only [step, ht, hx]; exact ⟨hn, hlt⟩
        · simp only [step, ht, hx]
          refine ⟨?_, Nat.lt_succ_of_lt hlt⟩
          rw [List.mem_append, List.mem_singleton]
          rintro (hm | hm)
          · exact hn hm
          · exact absurd hlt (by rw [hm]; exact lt_irrefl _)
        · simp only [step, ht, hx]
          exact ⟨fun hm => hn (List.mem_of_mem_erase hm), hlt⟩
      | timeout h1 =>
        simp only [step, Outcome.ctx, timerExpire_timers, timerExpire_nextHandle]
        exact ⟨fun hm => hn (List.mem_of_mem_erase hm), hlt⟩
    simp only [cbRuns, hn, and_false, if_false, Nat.zero_add]
    cases hstep : step i c with
    | returned c1 =>
      rw [hstep] at hnext
      exact ih c1 hnext.1 hnext.2
    | spins c1 => rfl

/-- A step of the state machine moves each relay together with its bit. -/
theorem AppStateManager_moves_together (e : EVENT_APP) (c : AppCtx) :
    ChannelsMoveTogether c (AppStateManager e c).ctx := by
  unfold AppStateManager
  by_cases hw : e = .EVENT_SYSTEM_WATCHDOG_RESET
  · subst hw
    simp [ChangeState, ZCB_EventSchedulerEventAdd, ZW_WatchDogEnable, logCall, Outcome.ctx,
      ChannelsMoveTogether]
  · simp only [hw, if_false]
    cases hc : c.currentState <;> simp only [] <;> (try split_ifs) <;>
      simp [Outcome.ctx, ChangeState, ZCB_EventSchedulerEventAdd,
        StartLearnModeNow, ZW_WatchDogEnable, OtaHostFWU_WriteFinish, OtaHostFWU_Status,
        ZW_TIMER_START, ZW_TIMER_CANCEL, s1_state_set_eq, s2_state_set_eq, s3_state_set_eq,
        led_nwk_on, led_nwk_off, Led, logCall, ChannelsMoveTogether]

/-- Relays that agreed with the bits still agree after channels moved together. -/
theorem RelaysAgree_of_moves_together (c c1 : AppCtx) (h : RelaysAgree c)
    (hm : ChannelsMoveTogether c c1) : RelaysAgree c1 := by
  simp only [RelaysAgree, relays, outputs, Prod.mk.injEq] at h ⊢
  obtain ⟨h1, h2, h3⟩ := h
  obtain ⟨m1, m2, m3⟩ := hm
  refine ⟨?_, ?_, ?_⟩
  · rcases m1 with ⟨a, b⟩ | a
    · rw [a, b]; exact h1
    · exact a
  · rcases m2 with ⟨a, b⟩ | a
    · rw [a, b]; exact h2
    · exact a
  · rcases m3 with ⟨a, b⟩ | a
    · rw [a, b]; exact h3
    · exact a

/-- Every step keeps the relays in agreement with the bits. -/
theorem step_RelaysAgree (i : Input) (c : AppCtx) (h : RelaysAgree c) :
    RelaysAgree (step i c).ctx := by
  cases i with
  | event e => exact RelaysAgree_of_moves_together c _ h (AppStateManager_moves_together e c)
  | timeout t =>
    simp only [step, Outcome.ctx, timerExpire]
    split
    · simpa [RelaysAgree, relays, outputs, cb_timer_5s_eq] using h
    · exact h

/-- Every run keeps the relays in agreement with the bits. -/
theorem run_RelaysAgree (l : List Input) (c : AppCtx) (h : RelaysAgree c) :
    RelaysAgree (run l c).ctx := by
  induction l generalizing c with
  | nil => exact h
  | cons i rest ih =>
    have h1 := step_RelaysAgree i c h
    unfold run
    cases hstep : step i c with
    | returned c1 =>
      rw [hstep] at h1
      exact ih c1 h1
    | spins c1 =>
      rw [hstep] at h1
      exact h1

/-! ## Theorems -/

/-- C1: in Idle with the long-press flag clear, handling the release event of
the key of channel `k` returns, leaves the state Idle, inverts the bit of channel
`k` (and what the getter reports for it) and leaves the bits of the other two
channels as they were. -/
theorem idle_key_release_toggles_its_channel (c : AppCtx) (k : Nat) (hk : k < 3)
    (hs : c.currentState = .STATE_APP_IDLE) (hl : c.switch_state.learn = false) :
    ∃ c1, AppStateManager (keyUpEvent k) c = .returned c1 ∧
      c1.currentState = .STATE_APP_IDLE ∧
      c1.switch_state.s1 = (if k = 0 then !c.switch_state.s1 else c.switch_state.s1) ∧
      c1.switch_state.s2 = (if k = 1 then !c.switch_state.s2 else c.switch_state.s2) ∧
      c1.switch_state.s3 = (if k = 2 then !c.switch_state.s3 else c.switch_state.s3) ∧
      handleAppltBinarySwitchGet k c1 = 1 - handleAppltBinarySwitchGet k c ∧
      (∀ j, j ≠ k → handleAppltBinarySwitchGet j c1 = handleAppltBinarySwitchGet j c) := by
  interval_cases k
  · cases hb : c.switch_state.s1 <;>
      simp [AppStateManager, keyUpEvent, hs, hl, hb, ZW_TIMER_CANCEL, logCall, s1_state_set,
        lnot, relay1_on, relay1_off, Led, handleAppltBinarySwitchGet, s1_state_get,
        s2_state_get, s3_state_get] <;>
      intro j hj <;> simp [hj]
  · cases hb : c.switch_state.s2 <;>
      simp [AppStateManager, keyUpEvent, hs, hl, hb, ZW_TIMER_CANCEL, logCall, s2_state_set,
        lnot, relay2_on, relay2_off, Led, handleAppltBinarySwitchGet, s1_state_get,
        s2_state_get, s3_state_get] <;>
      intro j hj <;> simp [hj]
  · cases hb : c.switch_state.s3 <;>
      simp [AppStateManager, keyUpEvent, hs, hl, hb, ZW_TIMER_CANCEL, logCall, s3_state_set,
        lnot, relay3_on, relay3_off, Led, handleAppltBinarySwitchGet, s1_state_get,
        s2_state_get, s3_state_get] <;>
      intro j hj <;> simp [hj]

/-- Witness of C1 at the initial globals, key of channel 1. -/
theorem idle_key_release_toggles_its_channel_witness :
    ∃ c1, AppStateManager (keyUpEvent 1) initialCtx = .returned c1 ∧
      c1.currentState = .STATE_APP_IDLE ∧
      c1.switch_state.s1 = (if 1 = 0 then !initialCtx.switch_state.s1
        else initialCtx.switch_state.s1) ∧
      c1.switch_state.s2 = (if 1 = 1 then !initialCtx.switch_state.s2
        else initialCtx.switch_state.s2) ∧
      c1.switch_state.s3 = (if 1 = 2 then !initialCtx.switch_state.s3
        else initialCtx.switch_state.s3) ∧
      handleAppltBinarySwitchGet 1 c1 = 1 - handleAppltBinarySwitchGet 1 initialCtx ∧
      (∀ j, j ≠ 1 → handleAppltBinarySwitchGet j c1 = handleAppltBinarySwitchGet j initialCtx) :=
  idle_key_release_toggles_its_channel initialCtx 1 (by decide) rfl rfl

/-- C2: in every state other than Idle, handling a key-release event changes
none of the three channel bits and none of the three relay levels (whether the
call returns or, in WatchdogReset, spins). -/
theorem key_release_outside_idle_keeps_outputs (c : AppCtx) (e : EVENT_APP)
    (hs : c.currentState ≠ .STATE_APP_IDLE)
    (he : e = .EVENT_KEY1_UP ∨ e = .EVENT_KEY2_UP ∨ e = .EVENT_KEY3_UP) :
    (AppStateManager e c).ctx.switch_state.s1 = c.switch_state.s1 ∧
    (AppStateManager e c).ctx.switch_state.s2 = c.switch_state.s2 ∧
    (AppStateManager e c).ctx.switch_state.s3 = c.switch_state.s3 ∧
    (AppStateManager e c).ctx.relay1 = c.relay1 ∧
    (AppStateManager e c).ctx.relay2 = c.relay2 ∧
    (AppStateManager e c).ctx.relay3 = c.relay3 := by
  rcases he with rfl | rfl | rfl <;>
    cases hc : c.currentState <;>
    simp_all [AppStateManager, Outcome.ctx, ChangeState, ZCB_EventSchedulerEventAdd,
      ZW_WatchDogEnable, logCall]

/-- Witness of C2: key 2 released in LearnMode. -/
theorem key_release_outside_idle_keeps_outputs_witness :
    (AppStateManager .EVENT_KEY2_UP
        { initialCtx with currentState := .STATE_APP_LEARN_MODE }).ctx.switch_state.s1 = false ∧
    (AppStateManager .EVENT_KEY2_UP
        { initialCtx with currentState := .STATE_APP_LEARN_MODE }).ctx.switch_state.s2 = false ∧
    (AppStateManager .EVENT_KEY2_UP
        { initialCtx with currentState := .STATE_APP_LEARN_MODE }).ctx.switch_state.s3 = false ∧
    (AppStateManager .EVENT_KEY2_UP
        { initialCtx with currentState := .STATE_APP_LEARN_MODE }).ctx.relay1 = false ∧
    (AppStateManager .EVENT_KEY2_UP
        { initialCtx with currentState := .STATE_APP_LEARN_MODE }).ctx.relay2 = false ∧
    (AppStateManager .EVENT_KEY2_UP
        { initialCtx with currentState := .STATE_APP_LEARN_MODE }).ctx.relay3 = false :=
  key_release_outside_idle_keeps_outputs
    { initialCtx with currentState := .STATE_APP_LEARN_MODE } .EVENT_KEY2_UP
    (by decide) (Or.inr (Or.inl rfl))

/-- C3: from every state, handling the watchdog-reset event makes the state
WatchdogReset and then spins in that state's branch: besides the state, the one
refresh event queued by the state change and the watchdog being armed, nothing
changes, so no branch of the old state ran (no channel or relay write, no timer
start or cancel, no learn-mode request). -/
theorem watchdog_event_forces_watchdog_reset (c : AppCtx) :
    AppStateManager .EVENT_SYSTEM_WATCHDOG_RESET c =
      .spins { c with
        currentState := .STATE_APP_WATCHDOG_RESET
        eventQueue := c.eventQueue ++ [.EVENT_APP_REFRESH_MMI]
        calls := c.calls ++ [.ZW_WatchDogEnable] } := by
  simp [AppStateManager, ChangeState, ZCB_EventSchedulerEventAdd, ZW_WatchDogEnable, logCall]

/-- C4, as stated, fails: the binary-switch ON value is the byte 0xFF, and after
`handleApplBinarySwitchSet(0xFF, 0)` the getter of channel 0 returns 1, not
0xFF. -/
theorem binary_switch_get_after_set_on_is_one :
    handleAppltBinarySwitchGet 0 (handleApplBinarySwitchSet 0xFF 0 initialCtx) = 1 ∧
    handleAppltBinarySwitchGet 0 (handleApplBinarySwitchSet 0xFF 0 initialCtx) ≠ 0xFF := by
  decide

/-- C4, amended: for every channel `k` in {0, 1, 2} and every byte `v`, after
`handleApplBinarySwitchSet(v, k)` the getter of channel `k` returns 1 when `v` is
non-zero and 0 when `v` is zero; so it returns `v` itself when `v` is 0 or 1. -/
theorem binary_switch_get_after_set (c : AppCtx) (v k : Nat) (hk : k < 3) :
    handleAppltBinarySwitchGet k (handleApplBinarySwitchSet v k c)
        = (if v % 256 ≠ 0 then 1 else 0) ∧
    (v ≤ 1 → handleAppltBinarySwitchGet k (handleApplBinarySwitchSet v k c) = v) := by
  have h1 : handleAppltBinarySwitchGet k (handleApplBinarySwitchSet v k c)
      = (if v % 256 ≠ 0 then 1 else 0) := by
    interval_cases k <;> by_cases hv : v % 256 = 0 <;>
      simp [handleAppltBinarySwitchGet, handleApplBinarySwitchSet, s1_state_set, s2_state_set,
        s3_state_set, s1_state_get, s2_state_get, s3_state_get, relay1_on, relay1_off,
        relay2_on, relay2_off, relay3_on, relay3_off, Led, logCall, hv]
  refine ⟨h1, fun hv => ?_⟩
  rw [h1]
  interval_cases v <;> simp

/-- Witness of amended C4: channel 2 set to 0xFF. -/
theorem binary_switch_get_after_set_witness :
    handleAppltBinarySwitchGet 2 (handleApplBinarySwitchSet 0xFF 2 initialCtx)
        = (if 0xFF % 256 ≠ 0 then 1 else 0) ∧
    (0xFF ≤ 1 → handleAppltBinarySwitchGet 2 (handleApplBinarySwitchSet 0xFF 2 initialCtx)
        = 0xFF) :=
  binary_switch_get_after_set initialCtx 0xFF 2 (by decide)

/-- C5, as stated, fails: the switch-all ON value is the byte 0xFF, and after
`handleSwitchAll(0xFF, 0)` the getter returns 1 for each channel, not 0xFF. -/
theorem switch_all_on_getters_are_one :
    handleAppltBinarySwitchGet 0 (handleSwitchAll 0xFF 0 initialCtx) = 1 ∧
    handleAppltBinarySwitchGet 1 (handleSwitchAll 0xFF 0 initialCtx) = 1 ∧
    handleAppltBinarySwitchGet 2 (handleSwitchAll 0xFF 0 initialCtx) = 1 ∧
    handleAppltBinarySwitchGet 0 (handleSwitchAll 0xFF 0 initialCtx) ≠ 0xFF := by
  decide

/-- C5, amended: for every byte `v` and every endpoint argument, after
`handleSwitchAll(v, endpoint)` the getter returns the same value for channels 0,
1 and 2: 1 when `v` is non-zero and 0 when `v` is zero. -/
theorem switch_all_getters_agree (c : AppCtx) (v endpoint : Nat) :
    handleAppltBinarySwitchGet 0 (handleSwitchAll v endpoint c)
        = (if v % 256 ≠ 0 then 1 else 0) ∧
    handleAppltBinarySwitchGet 1 (handleSwitchAll v endpoint c)
        = (if v % 256 ≠ 0 then 1 else 0) ∧
    handleAppltBinarySwitchGet 2 (handleSwitchAll v endpoint c)
        = (if v % 256 ≠ 0 then 1 else 0) := by
  by_cases hv : v % 256 = 0 <;>
    simp [handleAppltBinarySwitchGet, handleSwitchAll, s1_state_set, s2_state_set,
      s3_state_set, s1_state_get, s2_state_get, s3_state_get, relay1_on, relay1_off,
      relay2_on, relay2_off, relay3_on, relay3_off, Led, logCall, hv]

/-- C6: in Idle, handling the learn-mode-start event returns with the state
LearnMode, the network LED on, one refresh event queued, and exactly two SDK
calls made: one `StartLearnModeNow`, with mode exclusion when `myNodeID` is
non-zero and inclusion when it is zero, then the LED write.  The mode is a
function of `myNodeID` alone; nothing else changes. -/
theorem idle_learnmode_start_begins_membership (c : AppCtx)
    (hs : c.currentState = .STATE_APP_IDLE) :
    AppStateManager .EVENT_SYSTEM_LEARNMODE_START c =
      .returned { c with
        currentState := .STATE_APP_LEARN_MODE
        led_nwk := true
        eventQueue := c.eventQueue ++ [.EVENT_APP_REFRESH_MMI]
        calls := c.calls ++
          [.StartLearnModeNow
              (if c.myNodeID ≠ 0 then .LEARN_MODE_EXCLUSION_NWE else .LEARN_MODE_INCLUSION),
           .Led .ZDP03A_LED_D6 true] } := by
  by_cases hn : c.myNodeID = 0 <;>
    simp [AppStateManager, hs, hn, ChangeState, ZCB_EventSchedulerEventAdd, StartLearnModeNow,
      led_nwk_on, Led, logCall]

/-- Witness of C6 at the initial globals (no node identifier: inclusion). -/
theorem idle_learnmode_start_begins_membership_witness :
    AppStateManager .EVENT_SYSTEM_LEARNMODE_START initialCtx =
      .returned { initialCtx with
        currentState := .STATE_APP_LEARN_MODE
        led_nwk := true
        eventQueue := initialCtx.eventQueue ++ [.EVENT_APP_REFRESH_MMI]
        calls := initialCtx.calls ++
          [.StartLearnModeNow
              (if initialCtx.myNodeID ≠ 0 then .LEARN_MODE_EXCLUSION_NWE
               else .LEARN_MODE_INCLUSION),
           .Led .ZDP03A_LED_D6 true] } :=
  idle_learnmode_start_begins_membership initialCtx rfl

/-- C7: a key-down event handled in Idle returns, leaves the state Idle and
leaves a timer running whose handle is stored in `tmr_handle`.  If, after any
further inputs, the state is (still) Idle and that timer is still running, its
expiry runs `cb_timer_5s`: the timer is consumed, the state becomes LearnMode,
the long-press flag is set, and exactly one `StartLearnModeNow` is issued,
inclusion when `myNodeID` is zero and exclusion when it is non-zero (`myNodeID`
is read at the expiry and is the one the node had at the press: no input
handled in between writes it). -/
theorem long_press_in_idle_enters_learn_mode (c c2 : AppCtx) (e : EVENT_APP)
    (mid : List Input)
    (hs : c.currentState = .STATE_APP_IDLE)
    (he : e = .EVENT_KEY1_DOWN ∨ e = .EVENT_KEY2_DOWN ∨ e = .EVENT_KEY3_DOWN)
    (hrun : run mid (AppStateManager e c).ctx = .returned c2)
    (_hidle : c2.currentState = .STATE_APP_IDLE)
    (hpend : (AppStateManager e c).ctx.switch_state.tmr_handle ∈ c2.timers) :
    AppStateManager e c = .returned (AppStateManager e c).ctx ∧
    (AppStateManager e c).ctx.currentState = .STATE_APP_IDLE ∧
    (AppStateManager e c).ctx.switch_state.tmr_handle ∈ (AppStateManager e c).ctx.timers ∧
    c2.myNodeID = c.myNodeID ∧
    (timerExpire (AppStateManager e c).ctx.switch_state.tmr_handle c2).currentState
      = .STATE_APP_LEARN_MODE ∧
    (timerExpire (AppStateManager e c).ctx.switch_state.tmr_handle c2).switch_state.learn
      = true ∧
    (timerExpire (AppStateManager e c).ctx.switch_state.tmr_handle c2).calls
      = c2.calls ++
        [.StartLearnModeNow
            (if c2.myNodeID = 0 then .LEARN_MODE_INCLUSION else .LEARN_MODE_EXCLUSION_NWE),
         .Led .ZDP03A_LED_D6 true] ∧
    (timerExpire (AppStateManager e c).ctx.switch_state.tmr_handle c2).timers
      = c2.timers.erase (AppStateManager e c).ctx.switch_state.tmr_handle := by
  have hid : c2.myNodeID = c.myNodeID := by
    have h1 := run_myNodeID mid (AppStateManager e c).ctx
    rw [hrun, AppStateManager_myNodeID] at h1
    exact h1
  refine ⟨?_, ?_, ?_, hid, ?_, ?_, ?_, timerExpire_timers _ _⟩
  · rcases he with rfl | rfl | rfl <;> simp [AppStateManager, hs, Outcome.ctx]
  · rcases he with rfl | rfl | rfl <;>
      simp [AppStateManager, hs, Outcome.ctx, ZW_TIMER_START, logCall]
  · rcases he with rfl | rfl | rfl <;>
      simp [AppStateManager, hs, Outcome.ctx, ZW_TIMER_START, logCall]
  · simp [timerExpire, hpend, cb_timer_5s_eq]
  · simp [timerExpire, hpend, cb_timer_5s_eq]
  · by_cases hn : c2.myNodeID = 0 <;> simp [timerExpire, hpend, cb_timer_5s_eq, hn]

/-- Witness of C7: key 1 pressed at the initial globals (Idle, no node
identifier) and held until the timer expires: LearnMode, inclusion. -/
theorem long_press_in_idle_enters_learn_mode_witness :
    (timerExpire (AppStateManager .EVENT_KEY1_DOWN initialCtx).ctx.switch_state.tmr_handle
        (AppStateManager .EVENT_KEY1_DOWN initialCtx).ctx).currentState
      = .STATE_APP_LEARN_MODE ∧
    (timerExpire (AppStateManager .EVENT_KEY1_DOWN initialCtx).ctx.switch_state.tmr_handle
        (AppStateManager .EVENT_KEY1_DOWN initialCtx).ctx).calls
      = (AppStateManager .EVENT_KEY1_DOWN initialCtx).ctx.calls ++
        [.StartLearnModeNow .LEARN_MODE_INCLUSION, .Led .ZDP03A_LED_D6 true] :=
  have h := long_press_in_idle_enters_learn_mode initialCtx
    (AppStateManager .EVENT_KEY1_DOWN initialCtx).ctx .EVENT_KEY1_DOWN []
    rfl (Or.inl rfl) rfl rfl (by decide)
  ⟨h.2.2.2.2.1, h.2.2.2.2.2.2.1⟩

/-- C8, as stated, fails.  First, a key-down event handled outside Idle arms no
timer: after learn mode has started, key 1 is pressed; no timer is running
afterwards and an expiry finds nothing to run, so the callback runs zero times
for that press however long the key is held.  Second, in Idle, key 2 is pressed,
then key 1, then key 2 is released while key 1 stays down: the release cancels the
timer of key 1 (handle 2, the one stored last), the timer left running is the
one of key 2 (handle 1), and the callback never runs for the press of key 1. -/
theorem held_press_can_run_callback_zero_times :
    (run [.event .EVENT_SYSTEM_LEARNMODE_START, .event .EVENT_KEY1_DOWN] initialCtx).ctx.timers
      = [] ∧
    (run [.event .EVENT_SYSTEM_LEARNMODE_START, .event .EVENT_KEY1_DOWN]
      initialCtx).ctx.currentState = .STATE_APP_LEARN_MODE ∧
    cbRuns 1 [.event .EVENT_SYSTEM_LEARNMODE_START, .event .EVENT_KEY1_DOWN, .timeout 1]
      initialCtx = 0 ∧
    (run [.event .EVENT_KEY2_DOWN, .event .EVENT_KEY1_DOWN]
      initialCtx).ctx.switch_state.tmr_handle = 2 ∧
    (run [.event .EVENT_KEY2_DOWN, .event .EVENT_KEY1_DOWN, .event .EVENT_KEY2_UP]
      initialCtx).ctx.timers = [1] ∧
    cbRuns 2 [.event .EVENT_KEY2_DOWN, .event .EVENT_KEY1_DOWN, .event .EVENT_KEY2_UP,
      .timeout 2] initialCtx = 0 := by
  decide

/-- C8, amended: a key-down event handled in Idle returns and starts a timer for
that press (a handle no running timer has, stored in `tmr_handle`).  If the
inputs handled before its expiry contain no key-release event and no
watchdog-reset event, the timer is still running when it expires, and over the
whole run (those inputs, the expiry, then any inputs at all) `cb_timer_5s` runs
exactly once for that press: not before the expiry, once at the expiry, never
again. -/
theorem held_press_in_idle_runs_callback_once (c : AppCtx) (e : EVENT_APP)
    (mid post : List Input)
    (hs : c.currentState = .STATE_APP_IDLE) (he : isKeyDown e = true) (hwf : TimersWF c)
    (hmid : ∀ i ∈ mid,
      leavesTimer (AppStateManager e c).ctx.switch_state.tmr_handle i = true) :
    AppStateManager e c = .returned (AppStateManager e c).ctx ∧
    (AppStateManager e c).ctx.switch_state.tmr_handle ∉ c.timers ∧
    (AppStateManager e c).ctx.switch_state.tmr_handle ∈ (AppStateManager e c).ctx.timers ∧
    (∃ c2, run mid (AppStateManager e c).ctx = .returned c2 ∧
      (AppStateManager e c).ctx.switch_state.tmr_handle ∈ c2.timers) ∧
    cbRuns (AppStateManager e c).ctx.switch_state.tmr_handle mid (AppStateManager e c).ctx
      = 0 ∧
    cbRuns (AppStateManager e c).ctx.switch_state.tmr_handle
      (mid ++ .timeout (AppStateManager e c).ctx.switch_state.tmr_handle :: post)
      (AppStateManager e c).ctx = 1 := by
  have hwd : e ≠ .EVENT_SYSTEM_WATCHDOG_RESET := by
    rintro rfl
    simp [isKeyDown] at he
  have hs0 : c.currentState ≠ .STATE_APP_WATCHDOG_RESET := by simp [hs]
  obtain ⟨c1, hc1, hs1⟩ := AppStateManager_returns e c hwd hs0
  have hwf1 : TimersWF c1 := by
    simpa [step, hc1, Outcome.ctx] using step_TimersWF (.event e) c hwf
  have hfacts : c1.switch_state.tmr_handle = c.nextHandle ∧
      c1.timers = c.timers ++ [c.nextHandle] := by
    have he1 := (isKeyDown_iff e).mp he
    rcases he1 with rfl | rfl | rfl <;>
      simp [AppStateManager, hs, ZW_TIMER_START, logCall] at hc1 <;>
      subst hc1 <;> simp
  obtain ⟨hh, ht⟩ := hfacts
  have hctx : (AppStateManager e c).ctx = c1 := by rw [hc1]; rfl
  rw [hctx, hh] at hmid ⊢
  have hfresh : c.nextHandle ∉ c.timers := fun hm => absurd (hwf.2 _ hm) (lt_irrefl _)
  have hmem1 : c.nextHandle ∈ c1.timers := by
    rw [ht]; exact List.mem_append_right _ (List.mem_singleton_self _)
  obtain ⟨c2, hrun, _, hwf2, hmem2, hcnt⟩ :=
    run_keeps_timer c.nextHandle mid c1 hmid hs1 hwf1 hmem1
  refine ⟨hc1, hfresh, hmem1, ⟨c2, hrun, hmem2⟩, hcnt, ?_⟩
  rw [cbRuns_append, hcnt, hrun]
  have hgone : c.nextHandle ∉ (timerExpire c.nextHandle c2).timers := by
    rw [timerExpire_timers]
    exact hwf2.1.not_mem_erase
  have hlt : c.nextHandle < (timerExpire c.nextHandle c2).nextHandle := by
    rw [timerExpire_nextHandle]
    exact hwf2.2 _ hmem2
  simp [cbRuns, step, hmem2, cbRuns_of_not_running _ post _ hgone hlt]

/-- Witness of amended C8: key 1 pressed at the initial globals and held while
key 2 is pressed and a refresh event is handled; after the expiry a second
expiry and the release of key 1 follow.  The callback runs once. -/
theorem held_press_in_idle_runs_callback_once_witness :
    cbRuns 1
      ([.event .EVENT_KEY2_DOWN, .event .EVENT_APP_REFRESH_MMI] ++
        .timeout 1 :: [.timeout 1, .event .EVENT_KEY1_UP])
      (AppStateManager .EVENT_KEY1_DOWN initialCtx).ctx = 1 :=
  (held_press_in_idle_runs_callback_once initialCtx .EVENT_KEY1_DOWN
    [.event .EVENT_KEY2_DOWN, .event .EVENT_APP_REFRESH_MMI]
    [.timeout 1, .event .EVENT_KEY1_UP]
    rfl rfl ⟨List.nodup_nil, by decide⟩ (by decide)).2.2.2.2.2

/-- C9, the code at the failing input: from the initial globals (Idle), key 1 is
pressed, key 2 is pressed, key 1 is released, all before any expiry.  The press
of key 1 started the timer with handle 1; the press of key 2 overwrote the
stored handle with 2; the release of key 1 cancelled handle 2.  After the
release the timer of the press of key 1 is still running, and when it expires
`cb_timer_5s` runs for that press and the node enters LearnMode. -/
theorem released_press_timer_still_running :
    (run [.event .EVENT_KEY1_DOWN] initialCtx).ctx.switch_state.tmr_handle = 1 ∧
    (run [.event .EVENT_KEY1_DOWN, .event .EVENT_KEY2_DOWN]
      initialCtx).ctx.switch_state.tmr_handle = 2 ∧
    (run [.event .EVENT_KEY1_DOWN, .event .EVENT_KEY2_DOWN, .event .EVENT_KEY1_UP]
      initialCtx).ctx.timers = [1] ∧
    (run [.event .EVENT_KEY1_DOWN, .event .EVENT_KEY2_DOWN, .event .EVENT_KEY1_UP]
      initialCtx).ctx.calls =
        [.ZW_TIMER_START 500 1 1, .ZW_TIMER_START 500 1 2, .ZW_TIMER_CANCEL 2,
         .Led .ZDP03A_LED_D1 true] ∧
    cbRuns 1 [.event .EVENT_KEY1_DOWN, .event .EVENT_KEY2_DOWN, .event .EVENT_KEY1_UP,
      .timeout 1] initialCtx = 1 ∧
    (run [.event .EVENT_KEY1_DOWN, .event .EVENT_KEY2_DOWN, .event .EVENT_KEY1_UP,
      .timeout 1] initialCtx).ctx.currentState = .STATE_APP_LEARN_MODE := by
  decide

/-- C10, the code at the failing input: from the initial globals (Idle), key 1
is pressed and held until its timer expires (`cb_timer_5s` runs once and sets
the long-press flag), learn mode finishes (back to Idle), key 2 is pressed
(which clears the flag), and only then key 1 is released.  The release of key 1
switches channel 0 and its relay from off to on. -/
theorem release_after_long_press_toggles_channel :
    cbRuns 1 [.event .EVENT_KEY1_DOWN, .timeout 1] initialCtx = 1 ∧
    (run [.event .EVENT_KEY1_DOWN, .timeout 1] initialCtx).ctx.switch_state.learn = true ∧
    (run [.event .EVENT_KEY1_DOWN, .timeout 1, .event .EVENT_SYSTEM_LEARNMODE_FINISH,
      .event .EVENT_KEY2_DOWN] initialCtx).ctx.currentState = .STATE_APP_IDLE ∧
    (run [.event .EVENT_KEY1_DOWN, .timeout 1, .event .EVENT_SYSTEM_LEARNMODE_FINISH,
      .event .EVENT_KEY2_DOWN] initialCtx).ctx.switch_state.learn = false ∧
    (run [.event .EVENT_KEY1_DOWN, .timeout 1, .event .EVENT_SYSTEM_LEARNMODE_FINISH,
      .event .EVENT_KEY2_DOWN] initialCtx).ctx.switch_state.s1 = false ∧
    (run [.event .EVENT_KEY1_DOWN, .timeout 1, .event .EVENT_SYSTEM_LEARNMODE_FINISH,
      .event .EVENT_KEY2_DOWN, .event .EVENT_KEY1_UP] initialCtx).ctx.switch_state.s1 = true ∧
    (run [.event .EVENT_KEY1_DOWN, .timeout 1, .event .EVENT_SYSTEM_LEARNMODE_FINISH,
      .event .EVENT_KEY2_DOWN, .event .EVENT_KEY1_UP] initialCtx).ctx.relay1 = true := by
  decide

/-- C11, the code at the failing input: after boot and the wake-up event the
node is in Idle with no timer running.  Key 1 is pressed (timer 1), key 2 is
pressed while timer 1 is running (timer 2 is started as well: two running
timers), key 1 is released (this cancels timer 2, the handle stored last) and
key 1 is pressed again while timer 1, started by its own earlier press, is still
running: timer 3 is started and timers 1 and 3 are both running.  The key-down
was neither ignored nor a restart. -/
theorem key_down_while_timer_running_adds_timer :
    (run [.event (.EVENT_WAKEUP 0)] (boot sampleConsts 0 0 initialCtx)).ctx.currentState
      = .STATE_APP_IDLE ∧
    (run [.event (.EVENT_WAKEUP 0)] (boot sampleConsts 0 0 initialCtx)).ctx.timers = [] ∧
    (run [.event (.EVENT_WAKEUP 0), .event .EVENT_KEY1_DOWN]
      (boot sampleConsts 0 0 initialCtx)).ctx.timers = [1] ∧
    (run [.event (.EVENT_WAKEUP 0), .event .EVENT_KEY1_DOWN, .event .EVENT_KEY2_DOWN]
      (boot sampleConsts 0 0 initialCtx)).ctx.timers = [1, 2] ∧
    (run [.event (.EVENT_WAKEUP 0), .event .EVENT_KEY1_DOWN, .event .EVENT_KEY2_DOWN,
      .event .EVENT_KEY1_UP] (boot sampleConsts 0 0 initialCtx)).ctx.timers = [1] ∧
    (run [.event (.EVENT_WAKEUP 0), .event .EVENT_KEY1_DOWN, .event .EVENT_KEY2_DOWN,
      .event .EVENT_KEY1_UP, .event .EVENT_KEY1_DOWN]
      (boot sampleConsts 0 0 initialCtx)).ctx.timers = [1, 3] ∧
    (run [.event (.EVENT_WAKEUP 0), .event .EVENT_KEY1_DOWN, .event .EVENT_KEY2_DOWN,
      .event .EVENT_KEY1_UP, .event .EVENT_KEY1_DOWN]
      (boot sampleConsts 0 0 initialCtx)).ctx.switch_state.tmr_handle = 3 := by
  decide

/-- C12: for every persisted store whose sentinel byte differs from
`APPL_MAGIC_VALUE` (a byte constant), after boot the getter reports 0 for all
three channels, the in-memory and the persisted on/off value are 0, the
persisted sentinel reads `APPL_MAGIC_VALUE`, the state is Startup, and
`LoadConfiguration` took the defaults branch: it wrote the security magic byte,
reset transport and protocol, wrote on/off 0, the sentinel and the switch-all
mode, and cleared the association state with `AssociationInit(TRUE)`. -/
theorem boot_with_wrong_sentinel_loads_defaults (k : Consts) (c : AppCtx)
    (bWakeupReason nvmStatus : Nat)
    (hk : k.APPL_MAGIC_VALUE < 256)
    (hbad : MemoryGetByte .EEOFFSET_MAGIC_far c ≠ k.APPL_MAGIC_VALUE) :
    handleAppltBinarySwitchGet 0 (boot k bWakeupReason nvmStatus c) = 0 ∧
    handleAppltBinarySwitchGet 1 (boot k bWakeupReason nvmStatus c) = 0 ∧
    handleAppltBinarySwitchGet 2 (boot k bWakeupReason nvmStatus c) = 0 ∧
    (boot k bWakeupReason nvmStatus c).onOffState = 0 ∧
    MemoryGetByte .OnOffState_far (boot k bWakeupReason nvmStatus c) = 0 ∧
    MemoryGetByte .EEOFFSET_MAGIC_far (boot k bWakeupReason nvmStatus c)
      = k.APPL_MAGIC_VALUE ∧
    (boot k bWakeupReason nvmStatus c).currentState = .STATE_APP_STARTUP ∧
    Call.AssociationInit true ∈ (boot k bWakeupReason nvmStatus c).calls ∧
    LoadConfiguration k nvmStatus c =
      { c with
        myNodeID := c.nvm.nodeID % 256
        onOffState := 0
        nvm := { c.nvm with
          EEOFFS_MAGIC_BYTE_field := k.EEPROM_MAGIC_BYTE_VALUE % 256
          OnOffState_far := 0
          EEOFFSET_MAGIC_far := k.APPL_MAGIC_VALUE % 256
          EEOFFSET_SWITCH_ALL_MODE_far :=
            k.SWITCH_ALL_REPORT_INCLUDED_IN_THE_ALL_ON_ALL_OFF_FUNCTIONALITY % 256 }
        calls := c.calls ++
          [.MemoryGetID, .ManufacturerSpecificDeviceIDInit, .NvmInit nvmStatus,
           .MemoryPutByte .EEOFFS_MAGIC_BYTE_field (k.EEPROM_MAGIC_BYTE_VALUE % 256),
           .Transport_SetDefault, .ZW_SetDefault,
           .MemoryPutByte .OnOffState_far 0,
           .MemoryPutByte .EEOFFSET_MAGIC_far (k.APPL_MAGIC_VALUE % 256),
           .MemoryPutByte .EEOFFSET_SWITCH_ALL_MODE_far
             (k.SWITCH_ALL_REPORT_INCLUDED_IN_THE_ALL_ON_ALL_OFF_FUNCTIONALITY % 256),
           .AssociationInit true, .loadInitStatusPowerLevel] } := by
  have hbad1 : ¬ k.APPL_MAGIC_VALUE = c.nvm.EEOFFSET_MAGIC_far % 256 := by
    intro h
    exact hbad (by simp [MemoryGetByte, h])
  have hmod : k.APPL_MAGIC_VALUE % 256 = k.APPL_MAGIC_VALUE := Nat.mod_eq_of_lt hk
  refine ⟨?_, ?_, ?_, ?_, ?_, ?_, ?_, ?_, ?_⟩ <;>
    cases hw : k.WATCHDOG_ENABLED <;>
    simp [boot, ApplicationInitSW, ApplicationInitHW, LoadConfiguration,
      SetDefaultConfiguration, MemoryPutByte, MemoryGetByte, ZW_MEM_PUT_BYTE, MemoryGetID,
      AssociationInit, RefreshMMI, switch_init, key_init, led_init, relay_init,
      relay1_pin_out, relay2_pin_out, relay3_pin_out, relay1_off, relay2_off, relay3_off,
      led_nwk_pin_out, led_nwk_off, Led, SetPinOut, SetPinIn, logCall,
      ZCB_EventSchedulerEventAdd, ZW_WatchDogEnable, handleAppltBinarySwitchGet,
      s1_state_get, s2_state_get, s3_state_get, hbad1, hmod, hw]

/-- Witness of C12: boot from a store of zero bytes (sentinel 0, not 0x56). -/
theorem boot_with_wrong_sentinel_loads_defaults_witness :
    handleAppltBinarySwitchGet 0 (boot sampleConsts 0 0 initialCtx) = 0 ∧
    handleAppltBinarySwitchGet 1 (boot sampleConsts 0 0 initialCtx) = 0 ∧
    handleAppltBinarySwitchGet 2 (boot sampleConsts 0 0 initialCtx) = 0 ∧
    (boot sampleConsts 0 0 initialCtx).onOffState = 0 ∧
    MemoryGetByte .OnOffState_far (boot sampleConsts 0 0 initialCtx) = 0 ∧
    MemoryGetByte .EEOFFSET_MAGIC_far (boot sampleConsts 0 0 initialCtx) = 0x56 :=
  have h := boot_with_wrong_sentinel_loads_defaults sampleConsts initialCtx 0 0
    (by decide) (by decide)
  ⟨h.1, h.2.1, h.2.2.1, h.2.2.2.1, h.2.2.2.2.1, h.2.2.2.2.2.1⟩

/-- C13: when the persisted sentinel equals `APPL_MAGIC_VALUE`,
`LoadConfiguration` leaves the persisted store as it was and makes no write to
it, sets the in-memory on/off value to the stored on/off byte, and calls
`AssociationInit(FALSE)`; the only other changes are `myNodeID` (read from the
protocol) and the calls logged, none of which belongs to the defaults path. -/
theorem load_with_valid_sentinel_keeps_store (k : Consts) (c : AppCtx) (nvmStatus : Nat)
    (hgood : MemoryGetByte .EEOFFSET_MAGIC_far c = k.APPL_MAGIC_VALUE) :
    LoadConfiguration k nvmStatus c =
      { c with
        myNodeID := c.nvm.nodeID % 256
        onOffState := MemoryGetByte .OnOffState_far c
        calls := c.calls ++
          [.MemoryGetID, .ManufacturerSpecificDeviceIDInit, .NvmInit nvmStatus,
           .loadStatusPowerLevel, .AssociationInit false] } ∧
    (LoadConfiguration k nvmStatus c).nvm = c.nvm := by
  have hgood1 : k.APPL_MAGIC_VALUE = c.nvm.EEOFFSET_MAGIC_far % 256 := by
    simpa [MemoryGetByte] using hgood.symm
  constructor <;>
    simp [LoadConfiguration, MemoryGetByte, MemoryGetID, AssociationInit, RefreshMMI, logCall,
      ← hgood1]

/-- Witness of C13: a store holding the sentinel 0x56 and on/off byte 0xFF. -/
theorem load_with_valid_sentinel_keeps_store_witness :
    (LoadConfiguration sampleConsts 0
        { initialCtx with nvm := ⟨5, 0x56, 0xFF, 0xFF, 0x56⟩ }).nvm = ⟨5, 0x56, 0xFF, 0xFF, 0x56⟩ ∧
    (LoadConfiguration sampleConsts 0
        { initialCtx with nvm := ⟨5, 0x56, 0xFF, 0xFF, 0x56⟩ }).onOffState = 0xFF :=
  have h := load_with_valid_sentinel_keeps_store sampleConsts
    { initialCtx with nvm := ⟨5, 0x56, 0xFF, 0xFF, 0x56⟩ } 0 (by decide)
  ⟨h.2, by rw [h.1]; decide⟩

/-- C14: for every content of the persisted store (and a byte constant
`APPL_MAGIC_VALUE`), after `LoadConfiguration` the persisted sentinel reads
`APPL_MAGIC_VALUE` and the in-memory on/off value equals the persisted on/off
byte.  A second `LoadConfiguration` therefore takes the valid branch (its calls
are those of that branch, without any write) and leaves the persisted store,
the in-memory on/off value and `myNodeID` as the first load left them. -/
theorem load_is_idempotent (k : Consts) (c : AppCtx) (s1 s2 : Nat)
    (hk : k.APPL_MAGIC_VALUE < 256) :
    MemoryGetByte .EEOFFSET_MAGIC_far (LoadConfiguration k s1 c) = k.APPL_MAGIC_VALUE ∧
    (LoadConfiguration k s1 c).onOffState
      = MemoryGetByte .OnOffState_far (LoadConfiguration k s1 c) ∧
    LoadConfiguration k s2 (LoadConfiguration k s1 c) =
      { LoadConfiguration k s1 c with
        calls := (LoadConfiguration k s1 c).calls ++
          [.MemoryGetID, .ManufacturerSpecificDeviceIDInit, .NvmInit s2,
           .loadStatusPowerLevel, .AssociationInit false] } := by
  have hmod : k.APPL_MAGIC_VALUE % 256 = k.APPL_MAGIC_VALUE := Nat.mod_eq_of_lt hk
  by_cases hm : k.APPL_MAGIC_VALUE = c.nvm.EEOFFSET_MAGIC_far % 256
  · refine ⟨?_, ?_, ?_⟩ <;>
      simp [LoadConfiguration, MemoryGetByte, MemoryGetID, AssociationInit, RefreshMMI,
        logCall, ← hm, hmod]
  · refine ⟨?_, ?_, ?_⟩ <;>
      simp [LoadConfiguration, SetDefaultConfiguration, MemoryPutByte, ZW_MEM_PUT_BYTE,
        MemoryGetByte, MemoryGetID, AssociationInit, RefreshMMI, logCall, hm, hmod]

/-- Witness of C14: two loads from a store of zero bytes with sentinel 0x56. -/
theorem load_is_idempotent_witness :
    MemoryGetByte .EEOFFSET_MAGIC_far (LoadConfiguration sampleConsts 0 initialCtx) = 0x56 ∧
    (LoadConfiguration sampleConsts 1 (LoadConfiguration sampleConsts 0 initialCtx)).nvm
      = (LoadConfiguration sampleConsts 0 initialCtx).nvm :=
  have h := load_is_idempotent sampleConsts initialCtx 0 1 (by decide)
  ⟨h.1, by rw [h.2.2]⟩

/-- C15, as stated, fails.  Initialisation does not go through `ChangeState`:
`ApplicationInitSW` takes the state from Idle (the C initialiser) to Startup and
queues only the wake-up event, no refresh event.  And `AppStateManager` queues a
refresh event without a change of state when the watchdog-reset event is
handled in WatchdogReset. -/
theorem init_changes_state_without_refresh :
    initialCtx.currentState = .STATE_APP_IDLE ∧
    (ApplicationInitSW sampleConsts 0 initialCtx).2.currentState = .STATE_APP_STARTUP ∧
    (ApplicationInitSW sampleConsts 0 initialCtx).2.eventQueue = [.EVENT_WAKEUP 0] ∧
    refreshCount (ApplicationInitSW sampleConsts 0 initialCtx).2.eventQueue = 0 ∧
    (AppStateManager .EVENT_SYSTEM_WATCHDOG_RESET
      { initialCtx with currentState := .STATE_APP_WATCHDOG_RESET }).ctx.currentState
      = .STATE_APP_WATCHDOG_RESET ∧
    refreshCount (AppStateManager .EVENT_SYSTEM_WATCHDOG_RESET
      { initialCtx with currentState := .STATE_APP_WATCHDOG_RESET }).ctx.eventQueue = 1 := by
  decide

/-- C15, amended: `ChangeState` assigns the state and queues exactly one refresh
event.  For every state and event, `AppStateManager` queues exactly one refresh
event if it enters a new state or the event is the watchdog-reset event (its
forced `ChangeState`), and none otherwise.  The timer callback assigns LearnMode
with exactly one refresh event; `ZCB_OTAWrite` and `ZCB_OTAFinish` queue exactly
one refresh event when they change the state and none when they do not.
`ApplicationInitSW` assigns Startup directly and queues no refresh event. -/
theorem refresh_events_follow_state_changes (k : Consts) (c : AppCtx) (e : EVENT_APP)
    (newState : STATE_APP) (otaStatus : OTA_STATUS) (len nvmStatus : Nat) :
    ((ChangeState newState c).currentState = newState ∧
      (ChangeState newState c).eventQueue = c.eventQueue ++ [.EVENT_APP_REFRESH_MMI]) ∧
    refreshCount (AppStateManager e c).ctx.eventQueue =
      refreshCount c.eventQueue +
        (if (AppStateManager e c).ctx.currentState ≠ c.currentState ∨
            e = .EVENT_SYSTEM_WATCHDOG_RESET then 1 else 0) ∧
    ((cb_timer_5s c).currentState = .STATE_APP_LEARN_MODE ∧
      (cb_timer_5s c).eventQueue = c.eventQueue ++ [.EVENT_APP_REFRESH_MMI]) ∧
    refreshCount (ZCB_OTAWrite len c).eventQueue =
      refreshCount c.eventQueue +
        (if (ZCB_OTAWrite len c).currentState ≠ c.currentState then 1 else 0) ∧
    refreshCount (ZCB_OTAFinish otaStatus c).ctx.eventQueue =
      refreshCount c.eventQueue +
        (if (ZCB_OTAFinish otaStatus c).ctx.currentState ≠ c.currentState then 1 else 0) ∧
    ((ApplicationInitSW k nvmStatus c).2.currentState = .STATE_APP_STARTUP ∧
      refreshCount (ApplicationInitSW k nvmStatus c).2.eventQueue
        = refreshCount c.eventQueue) := by
  refine ⟨?_, ?_, ?_, ?_, ?_, ?_⟩
  · simp [ChangeState, ZCB_EventSchedulerEventAdd]
  · unfold AppStateManager
    by_cases hw : e = .EVENT_SYSTEM_WATCHDOG_RESET
    · subst hw
      simp [ChangeState, ZCB_EventSchedulerEventAdd, ZW_WatchDogEnable, logCall, Outcome.ctx,
        refreshCount]
    · simp only [hw, if_false]
      cases hc : c.currentState <;> simp only [] <;> (try split_ifs) <;>
        simp_all [Outcome.ctx, ChangeState, ZCB_EventSchedulerEventAdd,
          StartLearnModeNow, ZW_WatchDogEnable, OtaHostFWU_WriteFinish, OtaHostFWU_Status,
          ZW_TIMER_START, ZW_TIMER_CANCEL, s1_state_set_eq, s2_state_set_eq, s3_state_set_eq,
          led_nwk_on, led_nwk_off, Led, logCall, refreshCount]
  · simp [cb_timer_5s_eq]
  · unfold ZCB_OTAWrite
    cases hc : c.currentState <;> by_cases hl : len % 256 = 0 <;>
      simp [GetAppState, hc, hl, ChangeState, ZCB_EventSchedulerEventAdd, refreshCount]
  · unfold ZCB_OTAFinish
    cases hc : c.currentState <;> cases hr : c.userReboot <;> cases otaStatus <;>
      simp [GetAppState, hc, hr, ChangeState, ZCB_EventSchedulerEventAdd, ZW_WatchDogEnable,
        logCall, Outcome.ctx, refreshCount]
  · by_cases hm : k.APPL_MAGIC_VALUE = c.nvm.EEOFFSET_MAGIC_far % 256 <;>
      cases hw : k.WATCHDOG_ENABLED <;>
      simp [ApplicationInitSW, LoadConfiguration, SetDefaultConfiguration, MemoryPutByte,
        ZW_MEM_PUT_BYTE, MemoryGetByte, MemoryGetID, AssociationInit, RefreshMMI, logCall,
        ZW_WatchDogEnable, ZCB_EventSchedulerEventAdd, refreshCount, hm, hw]

/-- C16: in Startup, for every event other than the watchdog-reset event,
`AppStateManager` returns with the state Idle and one refresh event queued, and
nothing else changed: no channel or relay write, no timer started or cancelled,
no learn-mode request, no effect of the event itself. -/
theorem startup_any_event_goes_idle (c : AppCtx) (e : EVENT_APP)
    (hs : c.currentState = .STATE_APP_STARTUP)
    (he : e ≠ .EVENT_SYSTEM_WATCHDOG_RESET) :
    AppStateManager e c =
      .returned { c with
        currentState := .STATE_APP_IDLE
        eventQueue := c.eventQueue ++ [.EVENT_APP_REFRESH_MMI] } := by
  simp [AppStateManager, he, hs, ChangeState, ZCB_EventSchedulerEventAdd]

/-- Witness of C16: a key press handled in Startup right after boot. -/
theorem startup_any_event_goes_idle_witness :
    AppStateManager .EVENT_KEY1_DOWN (boot sampleConsts 0 0 initialCtx) =
      .returned { boot sampleConsts 0 0 initialCtx with
        currentState := .STATE_APP_IDLE
        eventQueue := (boot sampleConsts 0 0 initialCtx).eventQueue ++
          [.EVENT_APP_REFRESH_MMI] } :=
  startup_any_event_goes_idle (boot sampleConsts 0 0 initialCtx) .EVENT_KEY1_DOWN
    (by decide) (by decide)

/-- C17: in LearnMode, the learn-mode-end event and the learn-mode-finish event
both return with the state Idle, the network LED off and one refresh event
queued; the end event first issues `StartLearnModeNow(LEARN_MODE_DISABLE)`, the
finish event issues no `StartLearnModeNow` at all. -/
theorem learn_mode_end_and_finish_go_idle (c : AppCtx)
    (hs : c.currentState = .STATE_APP_LEARN_MODE) :
    AppStateManager .EVENT_SYSTEM_LEARNMODE_END c =
      .returned { c with
        currentState := .STATE_APP_IDLE
        led_nwk := false
        eventQueue := c.eventQueue ++ [.EVENT_APP_REFRESH_MMI]
        calls := c.calls ++
          [.StartLearnModeNow .LEARN_MODE_DISABLE, .Led .ZDP03A_LED_D6 false] } ∧
    AppStateManager .EVENT_SYSTEM_LEARNMODE_FINISH c =
      .returned { c with
        currentState := .STATE_APP_IDLE
        led_nwk := false
        eventQueue := c.eventQueue ++ [.EVENT_APP_REFRESH_MMI]
        calls := c.calls ++ [.Led .ZDP03A_LED_D6 false] } := by
  constructor <;>
    simp [AppStateManager, hs, ChangeState, ZCB_EventSchedulerEventAdd, StartLearnModeNow,
      led_nwk_off, Led, logCall]

/-- Witness of C17: learn mode entered from the initial globals, then ended. -/
theorem learn_mode_end_and_finish_go_idle_witness :
    (AppStateManager .EVENT_SYSTEM_LEARNMODE_END
      (AppStateManager .EVENT_SYSTEM_LEARNMODE_START initialCtx).ctx).ctx.currentState
      = .STATE_APP_IDLE :=
  have h := learn_mode_end_and_finish_go_idle
    (AppStateManager .EVENT_SYSTEM_LEARNMODE_START initialCtx).ctx (by decide)
  by rw [h.1]; rfl

/-- C18, as stated, fails: the Startup branch tests for no event at all, yet an
event handled there (here an event number the source never names, right after
boot) changes the state to Idle and queues a refresh event.  In WatchdogReset
an event the branch does not act on arms the watchdog and the call spins. -/
theorem untested_event_in_startup_changes_state :
    (boot sampleConsts 0 0 initialCtx).currentState = .STATE_APP_STARTUP ∧
    (AppStateManager (.EVENT_OTHER 0) (boot sampleConsts 0 0 initialCtx)).ctx.currentState
      = .STATE_APP_IDLE ∧
    (AppStateManager (.EVENT_OTHER 0) (boot sampleConsts 0 0 initialCtx)).ctx.eventQueue
      = (boot sampleConsts 0 0 initialCtx).eventQueue ++ [.EVENT_APP_REFRESH_MMI] ∧
    AppStateManager (.EVENT_OTHER 0)
        { initialCtx with currentState := .STATE_APP_WATCHDOG_RESET } =
      .spins { initialCtx with
        currentState := .STATE_APP_WATCHDOG_RESET
        calls := [.ZW_WatchDogEnable] } := by
  decide

/-- C18, amended: in Idle, LearnMode, Ota and OtaHost, every event other than the
watchdog-reset event that the state's branch does not act on (in Idle: anything
but learn-mode start, the key presses and the key releases; in LearnMode:
anything but learn-mode end and finish; in Ota: anything; in OtaHost: anything
but write-done and status) is ignored: the call returns and nothing at all has
changed, so the state, the channel outputs, the long-press flag, the timer
handle and `myNodeID` are as before, no event is queued and no SDK call is
made. -/
theorem unhandled_event_is_ignored (c : AppCtx) (e : EVENT_APP)
    (he : e ≠ .EVENT_SYSTEM_WATCHDOG_RESET)
    (hb : branchActsOn c.currentState e = false) :
    AppStateManager e c = .returned c := by
  unfold AppStateManager
  simp only [he, if_false]
  cases hc : c.currentState <;> rw [hc] at hb <;> cases e <;>
    simp_all [branchActsOn, isKeyDown, isKeyUp, OtaHostFWU_WriteFinish]

/-- Witness of C18: the learn-mode-finish event handled in Idle. -/
theorem unhandled_event_is_ignored_witness :
    AppStateManager .EVENT_SYSTEM_LEARNMODE_FINISH initialCtx = .returned initialCtx :=
  unhandled_event_is_ignored initialCtx .EVENT_SYSTEM_LEARNMODE_FINISH (by decide) (by decide)

/-- C19: `ZCB_OTAStart` returns `TRUE` exactly when the state is Idle; in every
other state it returns `FALSE` and changes nothing (it queues nothing); in Idle
it queues the OTA-start event and changes nothing else; the state is never
changed. -/
theorem ota_start_accepts_only_in_idle (c : AppCtx) :
    ((ZCB_OTAStart c).1 = true ↔ c.currentState = .STATE_APP_IDLE) ∧
    (c.currentState ≠ .STATE_APP_IDLE → ZCB_OTAStart c = (false, c)) ∧
    (c.currentState = .STATE_APP_IDLE →
      ZCB_OTAStart c =
        (true, { c with eventQueue := c.eventQueue ++ [.EVENT_SYSTEM_OTA_START] })) ∧
    (ZCB_OTAStart c).2.currentState = c.currentState := by
  by_cases hs : c.currentState = .STATE_APP_IDLE <;>
    simp [ZCB_OTAStart, GetAppState, hs, ZCB_EventSchedulerEventAdd]

/-- C20, as stated, fails: the timer callback itself assigns the current state.
Run at the initial globals (Idle) it leaves the state LearnMode, although no
event has been handled by `AppStateManager`. -/
theorem timer_callback_changes_state :
    initialCtx.currentState = .STATE_APP_IDLE ∧
    (cb_timer_5s initialCtx).currentState = .STATE_APP_LEARN_MODE ∧
    (cb_timer_5s initialCtx).switch_state.learn = true ∧
    (cb_timer_5s initialCtx).eventQueue = [.EVENT_APP_REFRESH_MMI] := by
  decide

/-- C20, amended: the timer callback `cb_timer_5s` changes none of the three
channel bits and none of the three relay levels.  It does change the shared
state itself, not through the queue: it sets the long-press flag, assigns the
state LearnMode through `ChangeState` (which queues one refresh event, the only
event it queues), requests inclusion or exclusion and lights the network LED;
nothing else is changed. -/
theorem timer_callback_effects (c : AppCtx) :
    (cb_timer_5s c).switch_state.s1 = c.switch_state.s1 ∧
    (cb_timer_5s c).switch_state.s2 = c.switch_state.s2 ∧
    (cb_timer_5s c).switch_state.s3 = c.switch_state.s3 ∧
    (cb_timer_5s c).relay1 = c.relay1 ∧
    (cb_timer_5s c).relay2 = c.relay2 ∧
    (cb_timer_5s c).relay3 = c.relay3 ∧
    cb_timer_5s c =
      { c with
        switch_state := { c.switch_state with learn := true }
        currentState := .STATE_APP_LEARN_MODE
        led_nwk := true
        eventQueue := c.eventQueue ++ [.EVENT_APP_REFRESH_MMI]
        calls := c.calls ++
          [.StartLearnModeNow
              (if c.myNodeID ≠ 0 then .LEARN_MODE_EXCLUSION_NWE else .LEARN_MODE_INCLUSION),
           .Led .ZDP03A_LED_D6 true] } := by
  refine ⟨?_, ?_, ?_, ?_, ?_, ?_, cb_timer_5s_eq c⟩ <;> simp [cb_timer_5s_eq]

/-- C21: the channel bits and relay levels are changed only by a key release
handled in Idle and by the two remote setters.  `AppStateManager` leaves them as
they were unless the event is a key release and the state is Idle; so do the
timer callback, `LearnCompleted`, `LoadConfiguration`, `SetDefaultConfiguration`,
`ZCB_OTAStart`, `ZCB_OTAWrite` and `ZCB_OTAFinish`. -/
theorem channel_outputs_change_only_by_release_or_set (k : Consts) (c : AppCtx)
    (e : EVENT_APP) (bNodeID nvmStatus len : Nat) (otaStatus : OTA_STATUS) :
    ((isKeyUp e = true ∧ c.currentState = .STATE_APP_IDLE) ∨
      (outputs (AppStateManager e c).ctx = outputs c ∧
        relays (AppStateManager e c).ctx = relays c)) ∧
    (outputs (cb_timer_5s c) = outputs c ∧ relays (cb_timer_5s c) = relays c) ∧
    (outputs (LearnCompleted k bNodeID c) = outputs c ∧
      relays (LearnCompleted k bNodeID c) = relays c) ∧
    (outputs (LoadConfiguration k nvmStatus c) = outputs c ∧
      relays (LoadConfiguration k nvmStatus c) = relays c) ∧
    (outputs (SetDefaultConfiguration k c) = outputs c ∧
      relays (SetDefaultConfiguration k c) = relays c) ∧
    (outputs (ZCB_OTAStart c).2 = outputs c ∧ relays (ZCB_OTAStart c).2 = relays c) ∧
    (outputs (ZCB_OTAWrite len c) = outputs c ∧ relays (ZCB_OTAWrite len c) = relays c) ∧
    (outputs (ZCB_OTAFinish otaStatus c).ctx = outputs c ∧
      relays (ZCB_OTAFinish otaStatus c).ctx = relays c) := by
  refine ⟨?_, ?_, ?_, ?_, ?_, ?_, ?_, ?_⟩
  · unfold AppStateManager
    by_cases hw : e = .EVENT_SYSTEM_WATCHDOG_RESET
    · subst hw
      simp [ChangeState, ZCB_EventSchedulerEventAdd, ZW_WatchDogEnable, logCall, Outcome.ctx,
        outputs, relays]
    · simp only [hw, if_false]
      cases hc : c.currentState <;> simp only [] <;> (try split_ifs) <;>
        simp_all [Outcome.ctx, ChangeState, ZCB_EventSchedulerEventAdd,
          StartLearnModeNow, ZW_WatchDogEnable, OtaHostFWU_WriteFinish, OtaHostFWU_Status,
          ZW_TIMER_START, ZW_TIMER_CANCEL, led_nwk_on, led_nwk_off, Led, logCall,
          isKeyUp, outputs, relays]
  · simp [cb_timer_5s_eq, outputs, relays]
  · unfold LearnCompleted
    simp only []
    split_ifs <;>
      simp [SetDefaultConfiguration, MemoryPutByte, AssociationInit,
        ZCB_EventSchedulerEventAdd, logCall, outputs, relays]
  · by_cases hm : k.APPL_MAGIC_VALUE = c.nvm.EEOFFSET_MAGIC_far % 256 <;>
      simp [LoadConfiguration, SetDefaultConfiguration, MemoryPutByte, ZW_MEM_PUT_BYTE,
        MemoryGetByte, MemoryGetID, AssociationInit, RefreshMMI, logCall, outputs, relays, hm]
  · simp [SetDefaultConfiguration, MemoryPutByte, logCall, outputs, relays]
  · by_cases hs : c.currentState = .STATE_APP_IDLE <;>
      simp [ZCB_OTAStart, GetAppState, hs, ZCB_EventSchedulerEventAdd, outputs, relays]
  · unfold ZCB_OTAWrite
    by_cases hs : c.currentState = .STATE_APP_IDLE <;> by_cases hl : len % 256 = 0 <;>
      simp [GetAppState, hs, hl, ChangeState, ZCB_EventSchedulerEventAdd, outputs, relays]
  · unfold ZCB_OTAFinish
    cases hc : c.currentState <;> cases hr : c.userReboot <;> cases otaStatus <;>
      simp [GetAppState, hc, hr, ChangeState, ZCB_EventSchedulerEventAdd, ZW_WatchDogEnable,
        logCall, Outcome.ctx, outputs, relays]

/-- C22: from Idle, two short-press cycles on the key of channel `k` (press,
release, press, release, no expiry in between) return with the state Idle and
the three channel bits, and what the getter reports for every channel, as they
were at the start; in particular a channel that was off ends off. -/
theorem double_short_press_restores_outputs (c : AppCtx) (k : Nat) (hk : k < 3)
    (hs : c.currentState = .STATE_APP_IDLE) :
    ∃ c4,
      run [.event (keyDownEvent k), .event (keyUpEvent k),
           .event (keyDownEvent k), .event (keyUpEvent k)] c = .returned c4 ∧
      c4.currentState = .STATE_APP_IDLE ∧
      outputs c4 = outputs c ∧
      (∀ j, handleAppltBinarySwitchGet j c4 = handleAppltBinarySwitchGet j c) ∧
      (handleAppltBinarySwitchGet k c = 0 → handleAppltBinarySwitchGet k c4 = 0) := by
  have hmain : ∃ c4,
      run [.event (keyDownEvent k), .event (keyUpEvent k),
           .event (keyDownEvent k), .event (keyUpEvent k)] c = .returned c4 ∧
      c4.currentState = .STATE_APP_IDLE ∧ outputs c4 = outputs c := by
    interval_cases k
    · cases hb : c.switch_state.s1 <;>
        simp [run, step, AppStateManager, keyDownEvent, keyUpEvent, hs, hb, ZW_TIMER_START,
          ZW_TIMER_CANCEL, s1_state_set_eq, lnot, logCall, outputs]
    · cases hb : c.switch_state.s2 <;>
        simp [run, step, AppStateManager, keyDownEvent, keyUpEvent, hs, hb, ZW_TIMER_START,
          ZW_TIMER_CANCEL, s2_state_set_eq, lnot, logCall, outputs]
    · cases hb : c.switch_state.s3 <;>
        simp [run, step, AppStateManager, keyDownEvent, keyUpEvent, hs, hb, ZW_TIMER_START,
          ZW_TIMER_CANCEL, s3_state_set_eq, lnot, logCall, outputs]
  obtain ⟨c4, hrun, hst, hout⟩ := hmain
  have hget : ∀ j, handleAppltBinarySwitchGet j c4 = handleAppltBinarySwitchGet j c := by
    intro j
    simp only [outputs, Prod.mk.injEq] at hout
    simp [handleAppltBinarySwitchGet, s1_state_get, s2_state_get, s3_state_get, hout.1,
      hout.2.1, hout.2.2]
  exact ⟨c4, hrun, hst, hout, hget, fun h0 => by rw [hget k]; exact h0⟩

/-- Witness of C22: channel 1 (key 2) short-pressed twice from the initial
globals. -/
theorem double_short_press_restores_outputs_witness :
    ∃ c4,
      run [.event (keyDownEvent 1), .event (keyUpEvent 1),
           .event (keyDownEvent 1), .event (keyUpEvent 1)] initialCtx = .returned c4 ∧
      c4.currentState = .STATE_APP_IDLE ∧
      outputs c4 = outputs initialCtx ∧
      (∀ j, handleAppltBinarySwitchGet j c4 = handleAppltBinarySwitchGet j initialCtx) ∧
      (handleAppltBinarySwitchGet 1 initialCtx = 0 → handleAppltBinarySwitchGet 1 c4 = 0) :=
  double_short_press_restores_outputs initialCtx 1 (by decide) rfl

/-- C23: once the state is WatchdogReset, `AppStateManager` does not return for
any event: it arms the watchdog and spins, with the state still WatchdogReset
and the channel bits and relay levels as they were; a run that starts with an
event therefore handles nothing after it. -/
theorem watchdog_reset_is_terminal (c : AppCtx) (e : EVENT_APP) (rest : List Input)
    (hs : c.currentState = .STATE_APP_WATCHDOG_RESET) :
    AppStateManager e c =
      .spins (ZW_WatchDogEnable
        (if e = .EVENT_SYSTEM_WATCHDOG_RESET then ChangeState .STATE_APP_WATCHDOG_RESET c
         else c)) ∧
    (AppStateManager e c).ctx.currentState = .STATE_APP_WATCHDOG_RESET ∧
    outputs (AppStateManager e c).ctx = outputs c ∧
    relays (AppStateManager e c).ctx = relays c ∧
    run (.event e :: rest) c = .spins (AppStateManager e c).ctx := by
  have h1 : AppStateManager e c =
      .spins (ZW_WatchDogEnable
        (if e = .EVENT_SYSTEM_WATCHDOG_RESET then ChangeState .STATE_APP_WATCHDOG_RESET c
         else c)) := by
    by_cases hw : e = .EVENT_SYSTEM_WATCHDOG_RESET <;>
      simp [AppStateManager, hw, hs, ChangeState, ZCB_EventSchedulerEventAdd]
  refine ⟨h1, ?_, ?_, ?_, ?_⟩
  · rw [h1]
    by_cases hw : e = .EVENT_SYSTEM_WATCHDOG_RESET <;>
      simp [hw, hs, Outcome.ctx, ChangeState, ZCB_EventSchedulerEventAdd,
        ZW_WatchDogEnable, logCall]
  · rw [h1]
    by_cases hw : e = .EVENT_SYSTEM_WATCHDOG_RESET <;>
      simp [hw, Outcome.ctx, ChangeState, ZCB_EventSchedulerEventAdd,
        ZW_WatchDogEnable, logCall, outputs]
  · rw [h1]
    by_cases hw : e = .EVENT_SYSTEM_WATCHDOG_RESET <;>
      simp [hw, Outcome.ctx, ChangeState, ZCB_EventSchedulerEventAdd,
        ZW_WatchDogEnable, logCall, relays]
  · simp only [run, step]
    rw [h1]
    rfl

/-- Witness of C23: the watchdog-reset event has put the node into
WatchdogReset; a key release follows. -/
theorem watchdog_reset_is_terminal_witness :
    (AppStateManager .EVENT_KEY1_UP
      (AppStateManager .EVENT_SYSTEM_WATCHDOG_RESET initialCtx).ctx).ctx.currentState
      = .STATE_APP_WATCHDOG_RESET ∧
    outputs (AppStateManager .EVENT_KEY1_UP
      (AppStateManager .EVENT_SYSTEM_WATCHDOG_RESET initialCtx).ctx).ctx
      = outputs (AppStateManager .EVENT_SYSTEM_WATCHDOG_RESET initialCtx).ctx :=
  have h := watchdog_reset_is_terminal
    (AppStateManager .EVENT_SYSTEM_WATCHDOG_RESET initialCtx).ctx .EVENT_KEY1_UP []
    (by decide)
  ⟨h.2.1, h.2.2.1⟩

/-- C24, as stated, fails: in OtaHost with `userReboot` true before the event,
handling the host-status event passes `FALSE` to `OtaHostFWU_Status`, not the
value the flag held, and leaves the flag false. -/
theorem ota_host_status_passes_false :
    AppStateManager .EVENT_APP_OTA_HOST_STATUS
        { initialCtx with currentState := .STATE_APP_OTA_HOST, userReboot := true } =
      .returned { initialCtx with
        currentState := .STATE_APP_OTA_HOST
        userReboot := false
        calls := [.OtaHostFWU_Status false true] } := by
  decide

/-- C24, amended: in OtaHost, handling the host-status event first sets
`userReboot` to `FALSE` and then calls `OtaHostFWU_Status(userReboot, TRUE)`, so
the reboot flag passed is always `FALSE`, whatever the flag held before; the
state stays OtaHost and nothing else changes. -/
theorem ota_host_status_reports_with_flag_cleared (c : AppCtx)
    (hs : c.currentState = .STATE_APP_OTA_HOST) :
    AppStateManager .EVENT_APP_OTA_HOST_STATUS c =
      .returned { c with
        userReboot := false
        calls := c.calls ++ [.OtaHostFWU_Status false true] } ∧
    (AppStateManager .EVENT_APP_OTA_HOST_STATUS c).ctx.currentState
      = .STATE_APP_OTA_HOST := by
  constructor <;> simp [AppStateManager, hs, OtaHostFWU_Status, logCall, Outcome.ctx]

/-- Witness of amended C24: the state reached by `ZCB_OTAWrite` from Idle. -/
theorem ota_host_status_reports_with_flag_cleared_witness :
    (AppStateManager .EVENT_APP_OTA_HOST_STATUS (ZCB_OTAWrite 0 initialCtx)).ctx.currentState
      = .STATE_APP_OTA_HOST :=
  (ota_host_status_reports_with_flag_cleared (ZCB_OTAWrite 0 initialCtx) (by decide)).2

/-- C25: a key-down event starts the long-press timer exactly when it is handled
in Idle.  In Idle the call returns having made one call `ZW_TIMER_START` with
500 ticks (of 10 ms: 5 s) and repeat count 1, with the handle stored in
`tmr_handle`, the long-press flag cleared and nothing else changed.  In every
other state no timer is started, and the flag and the stored handle are as they
were; the only call made, if any, is the watchdog arm of WatchdogReset. -/
theorem key_down_starts_timer_iff_idle (c : AppCtx) (e : EVENT_APP)
    (he : isKeyDown e = true) :
    (c.currentState = .STATE_APP_IDLE →
      AppStateManager e c =
        .returned { c with
          switch_state := { c.switch_state with tmr_handle := c.nextHandle, learn := false }
          timers := c.timers ++ [c.nextHandle]
          nextHandle := c.nextHandle + 1
          calls := c.calls ++ [.ZW_TIMER_START 500 1 c.nextHandle] }) ∧
    (c.currentState ≠ .STATE_APP_IDLE →
      (AppStateManager e c).ctx.timers = c.timers ∧
      (AppStateManager e c).ctx.nextHandle = c.nextHandle ∧
      (AppStateManager e c).ctx.switch_state = c.switch_state ∧
      ((AppStateManager e c).ctx.calls = c.calls ∨
        (AppStateManager e c).ctx.calls = c.calls ++ [.ZW_WatchDogEnable])) ∧
    ((AppStateManager e c).ctx.timers.length = c.timers.length + 1 ↔
      c.currentState = .STATE_APP_IDLE) := by
  have he1 := (isKeyDown_iff e).mp he
  refine ⟨?_, ?_, ?_⟩
  · intro hs
    rcases he1 with rfl | rfl | rfl <;>
      simp [AppStateManager, hs, ZW_TIMER_START, logCall]
  · intro hs
    rcases he1 with rfl | rfl | rfl <;> cases hc : c.currentState <;>
      simp_all [AppStateManager, Outcome.ctx, ChangeState, ZCB_EventSchedulerEventAdd,
        ZW_WatchDogEnable, logCall]
  · rcases he1 with rfl | rfl | rfl <;> cases hc : c.currentState <;>
      simp [AppStateManager, hc, Outcome.ctx, ChangeState, ZCB_EventSchedulerEventAdd,
        ZW_WatchDogEnable, ZW_TIMER_START, logCall]

/-- Witness of C25: key 3 pressed at the initial globals (Idle). -/
theorem key_down_starts_timer_iff_idle_witness :
    AppStateManager .EVENT_KEY3_DOWN initialCtx =
      .returned { initialCtx with
        switch_state := { initialCtx.switch_state with
          tmr_handle := initialCtx.nextHandle, learn := false }
        timers := initialCtx.timers ++ [initialCtx.nextHandle]
        nextHandle := initialCtx.nextHandle + 1
        calls := initialCtx.calls ++ [.ZW_TIMER_START 500 1 initialCtx.nextHandle] } :=
  (key_down_starts_timer_iff_idle initialCtx .EVENT_KEY3_DOWN rfl).1 rfl

/-- C26: the setters store one bit.  For every channel `k` in {0, 1, 2} and every
byte `v`, after `handleApplBinarySwitchSet(v, k)` and after
`handleSwitchAll(v, endpoint)` the getter, `getAppBasicReport` and
`getAppBasicReportTarget` of channel `k` return 1 when `v` is non-zero (so also
for 0xFF) and 0 when `v` is zero; and in every context the getter returns 0 or 1
for every endpoint. -/
theorem setters_store_one_bit (c : AppCtx) (v k endpoint : Nat) (hk : k < 3)
    (hv : v < 256) :
    handleAppltBinarySwitchGet k (handleApplBinarySwitchSet v k c)
      = (if v ≠ 0 then 1 else 0) ∧
    handleAppltBinarySwitchGet k (handleSwitchAll v endpoint c)
      = (if v ≠ 0 then 1 else 0) ∧
    getAppBasicReport k (handleApplBinarySwitchSet v k c) = (if v ≠ 0 then 1 else 0) ∧
    getAppBasicReport k (handleSwitchAll v endpoint c) = (if v ≠ 0 then 1 else 0) ∧
    getAppBasicReportTarget k (handleApplBinarySwitchSet v k c)
      = (if v ≠ 0 then 1 else 0) ∧
    getAppBasicReportTarget k (handleSwitchAll v endpoint c) = (if v ≠ 0 then 1 else 0) ∧
    (handleAppltBinarySwitchGet endpoint c = 0 ∨ handleAppltBinarySwitchGet endpoint c = 1) := by
  have hmod : v % 256 = v := Nat.mod_eq_of_lt hv
  have hset : handleAppltBinarySwitchGet k (handleApplBinarySwitchSet v k c)
      = (if v ≠ 0 then 1 else 0) := by
    interval_cases k <;> by_cases h0 : v = 0 <;>
      simp [handleAppltBinarySwitchGet, handleApplBinarySwitchSet, s1_state_set_eq,
        s2_state_set_eq, s3_state_set_eq, s1_state_get, s2_state_get, s3_state_get, hmod, h0]
  have hall : handleAppltBinarySwitchGet k (handleSwitchAll v endpoint c)
      = (if v ≠ 0 then 1 else 0) := by
    interval_cases k <;> by_cases h0 : v = 0 <;>
      simp [handleAppltBinarySwitchGet, handleSwitchAll, s1_state_set_eq,
        s2_state_set_eq, s3_state_set_eq, s1_state_get, s2_state_get, s3_state_get, hmod, h0]
  refine ⟨hset, hall, hset, hall, hset, hall, ?_⟩
  unfold handleAppltBinarySwitchGet s1_state_get s2_state_get s3_state_get
  split_ifs <;> simp

/-- Witness of C26: channel 0 set to the ON value 0xFF. -/
theorem setters_store_one_bit_witness :
    handleAppltBinarySwitchGet 0 (handleApplBinarySwitchSet 0xFF 0 initialCtx)
      = (if 0xFF ≠ 0 then 1 else 0) ∧
    handleAppltBinarySwitchGet 0 (handleSwitchAll 0xFF 7 initialCtx)
      = (if 0xFF ≠ 0 then 1 else 0) :=
  have h := setters_store_one_bit initialCtx 0xFF 0 7 (by decide) (by decide)
  ⟨h.1, h.2.1⟩

/-- C27: relay levels and channel bits agree.  After `switch_init` (and after
`ApplicationInitHW`, which runs it) the level last written to each relay is the
channel's bit, from any starting point.  From a context where they agree, they
agree again after any `AppStateManager` step, after `handleApplBinarySwitchSet`,
after `handleSwitchAll`, after `cb_timer_5s` and after any run of events and
timer expiries.  And each of these operations, from any context, moves a relay
only together with its bit: per channel, either both are as before or the relay
level equals the bit afterwards. -/
theorem relay_levels_agree_with_bits (c0 c : AppCtx) (e : EVENT_APP) (l : List Input)
    (v endpoint bWakeupReason : Nat) (h : RelaysAgree c) :
    RelaysAgree (switch_init c0) ∧
    RelaysAgree (ApplicationInitHW bWakeupReason c0).2 ∧
    RelaysAgree (AppStateManager e c).ctx ∧
    RelaysAgree (handleApplBinarySwitchSet v endpoint c) ∧
    RelaysAgree (handleSwitchAll v endpoint c) ∧
    RelaysAgree (cb_timer_5s c) ∧
    RelaysAgree (run l c).ctx ∧
    ChannelsMoveTogether c0 (AppStateManager e c0).ctx ∧
    ChannelsMoveTogether c0 (handleApplBinarySwitchSet v endpoint c0) ∧
    ChannelsMoveTogether c0 (handleSwitchAll v endpoint c0) ∧
    ChannelsMoveTogether c0 (cb_timer_5s c0) := by
  have hset : ∀ d : AppCtx, ChannelsMoveTogether d (handleApplBinarySwitchSet v endpoint d) := by
    intro d
    unfold handleApplBinarySwitchSet
    split_ifs <;>
      simp [ChannelsMoveTogether, s1_state_set_eq, s2_state_set_eq, s3_state_set_eq]
  have hall : ∀ d : AppCtx, ChannelsMoveTogether d (handleSwitchAll v endpoint d) := by
    intro d
    simp [ChannelsMoveTogether, handleSwitchAll, s1_state_set_eq, s2_state_set_eq,
      s3_state_set_eq]
  have hcb : ∀ d : AppCtx, ChannelsMoveTogether d (cb_timer_5s d) := by
    intro d
    simp [ChannelsMoveTogether, cb_timer_5s_eq]
  refine ⟨?_, ?_, ?_, ?_, ?_, ?_, run_RelaysAgree l c h, AppStateManager_moves_together e c0,
    hset c0, hall c0, hcb c0⟩
  · simp [RelaysAgree, relays, outputs, switch_init, key_init, led_init, relay_init,
      relay1_pin_out, relay2_pin_out, relay3_pin_out, relay1_off, relay2_off, relay3_off,
      led_nwk_pin_out, led_nwk_off, Led, SetPinOut, SetPinIn, logCall]
  · simp [RelaysAgree, relays, outputs, ApplicationInitHW, switch_init, key_init, led_init,
      relay_init, relay1_pin_out, relay2_pin_out, relay3_pin_out, relay1_off, relay2_off,
      relay3_off, led_nwk_pin_out, led_nwk_off, Led, SetPinOut, SetPinIn, logCall]
  · exact RelaysAgree_of_moves_together c _ h (AppStateManager_moves_together e c)
  · exact RelaysAgree_of_moves_together c _ h (hset c)
  · exact RelaysAgree_of_moves_together c _ h (hall c)
  · exact RelaysAgree_of_moves_together c _ h (hcb c)

/-- Witness of C27: after hardware initialisation, key 1 is released in Idle
(channel 0 toggles): relay 1 and bit 1 are both on. -/
theorem relay_levels_agree_with_bits_witness :
    RelaysAgree (AppStateManager .EVENT_KEY1_UP (ApplicationInitHW 0 initialCtx).2).ctx ∧
    relays (AppStateManager .EVENT_KEY1_UP (ApplicationInitHW 0 initialCtx).2).ctx
      = (true, false, false) :=
  ⟨(relay_levels_agree_with_bits initialCtx (ApplicationInitHW 0 initialCtx).2
      .EVENT_KEY1_UP [] 0 0 0 (by unfold RelaysAgree; decide)).2.2.1, by decide⟩

/-- C28: a key release handled in Idle with the long-press flag clear toggles its
channel and cancels the stored timer handle, whatever came before.  In
particular, from the initial globals: learn mode starts, key 1 is pressed in
LearnMode (no timer is started: none is running and no `ZW_TIMER_START` has been
called), learn mode finishes (Idle again, flag still clear), and the release of
key 1 then switches channel 0 on and calls `ZW_TIMER_CANCEL` on the stale handle
0. -/
theorem key_release_toggles_without_press_in_idle :
    (∀ (c : AppCtx) (k : Nat), k < 3 → c.currentState = .STATE_APP_IDLE →
      c.switch_state.learn = false →
      handleAppltBinarySwitchGet k (AppStateManager (keyUpEvent k) c).ctx
        = 1 - handleAppltBinarySwitchGet k c ∧
      Call.ZW_TIMER_CANCEL c.switch_state.tmr_handle
        ∈ (AppStateManager (keyUpEvent k) c).ctx.calls) ∧
    (run [.event .EVENT_SYSTEM_LEARNMODE_START, .event .EVENT_KEY1_DOWN] initialCtx).ctx
      = (run [.event .EVENT_SYSTEM_LEARNMODE_START] initialCtx).ctx ∧
    (run [.event .EVENT_SYSTEM_LEARNMODE_START, .event .EVENT_KEY1_DOWN,
      .event .EVENT_SYSTEM_LEARNMODE_FINISH] initialCtx).ctx.currentState = .STATE_APP_IDLE ∧
    (run [.event .EVENT_SYSTEM_LEARNMODE_START, .event .EVENT_KEY1_DOWN,
      .event .EVENT_SYSTEM_LEARNMODE_FINISH] initialCtx).ctx.timers = [] ∧
    (run [.event .EVENT_SYSTEM_LEARNMODE_START, .event .EVENT_KEY1_DOWN,
      .event .EVENT_SYSTEM_LEARNMODE_FINISH] initialCtx).ctx.calls =
        [.StartLearnModeNow .LEARN_MODE_INCLUSION, .Led .ZDP03A_LED_D6 true,
         .Led .ZDP03A_LED_D6 false] ∧
    (run [.event .EVENT_SYSTEM_LEARNMODE_START, .event .EVENT_KEY1_DOWN,
      .event .EVENT_SYSTEM_LEARNMODE_FINISH] initialCtx).ctx.switch_state.s1 = false ∧
    (run [.event .EVENT_SYSTEM_LEARNMODE_START, .event .EVENT_KEY1_DOWN,
      .event .EVENT_SYSTEM_LEARNMODE_FINISH, .event .EVENT_KEY1_UP]
      initialCtx).ctx.switch_state.s1 = true ∧
    (run [.event .EVENT_SYSTEM_LEARNMODE_START, .event .EVENT_KEY1_DOWN,
      .event .EVENT_SYSTEM_LEARNMODE_FINISH, .event .EVENT_KEY1_UP] initialCtx).ctx.calls =
        [.StartLearnModeNow .LEARN_MODE_INCLUSION, .Led .ZDP03A_LED_D6 true,
         .Led .ZDP03A_LED_D6 false, .ZW_TIMER_CANCEL 0, .Led .ZDP03A_LED_D1 true] := by
  refine ⟨?_, by decide, by decide, by decide, by decide, by decide, by decide, by decide⟩
  intro c k hk hs hl
  interval_cases k
  · cases hb : c.switch_state.s1 <;>
      simp [AppStateManager, keyUpEvent, hs, hl, hb, ZW_TIMER_CANCEL, logCall, s1_state_set_eq,
        lnot, Outcome.ctx, handleAppltBinarySwitchGet, s1_state_get]
  · cases hb : c.switch_state.s2 <;>
      simp [AppStateManager, keyUpEvent, hs, hl, hb, ZW_TIMER_CANCEL, logCall, s2_state_set_eq,
        lnot, Outcome.ctx, handleAppltBinarySwitchGet, s2_state_get]
  · cases hb : c.switch_state.s3 <;>
      simp [AppStateManager, keyUpEvent, hs, hl, hb, ZW_TIMER_CANCEL, logCall, s3_state_set_eq,
        lnot, Outcome.ctx, handleAppltBinarySwitchGet, s3_state_get]

end SwitchOnOff
